import Mathlib

/-!
Verification development for the music playback context
(`src/contexts/MusicContext.js`): a shallow embedding of the
search / merge / playback-resolution / history logic, together with
theorems about the embedded definitions.

Conventions of the embedding:
* JavaScript `undefined`-able values are `Option`s; JS falsiness of
  strings (`undefined` / `""`) and numbers (`undefined` / `0`) is made
  explicit in the `jsOr*` helpers.
* React state reads/writes are modelled as reads/writes of one explicit
  session state record (`Ctx`), following the spec's session-state model.
* The async resolver (`onPlaySong`) is modelled as a task with explicit
  suspension points (the awaited fetch, and the 1s retry delay); the
  environment chooses each fetch outcome.  An `AbortController` is a
  numeric token; aborting adds it to `Ctx.aborted`, and a fetch that
  resumes on an already-aborted token rejects with `AbortError`,
  matching single-threaded JS event-loop semantics.
-/

set_option autoImplicit false

deriving instance DecidableEq for Except

namespace MusicCtx

/-- JS `a || b` on possibly-undefined numbers: `undefined` and `0` are falsy. -/
def jsOrNat (a b : Option Nat) : Option Nat :=
  match a with
  | some n => if n = 0 then b else some n
  | none => b

/-- JS `a || b` on a possibly-undefined string with a possibly-undefined fallback. -/
def jsOrStr (a b : Option String) : Option String :=
  match a with
  | some s => if s = "" then b else some s
  | none => b

/-- JS `a || b` on a possibly-undefined string with a definite string fallback. -/
def jsOrStrD (a : Option String) (b : String) : String :=
  match a with
  | some s => if s = "" then b else s
  | none => b

/-- JS template interpolation `${x}` of a possibly-undefined string. -/
def strArg (a : Option String) : String :=
  match a with
  | some s => s
  | none => "undefined"

/-- JS template interpolation `${x}` of a possibly-undefined number. -/
def numArg (a : Option Nat) : String :=
  match a with
  | some n => toString n
  | none => "undefined"

/-- JS whitespace for `String.prototype.trim` (ASCII fragment: space, tab,
LF, VT, FF, CR). -/
def isJsSpace (c : Char) : Bool :=
  c == Char.ofNat 32 || c == Char.ofNat 9 || c == Char.ofNat 10 ||
  c == Char.ofNat 11 || c == Char.ofNat 12 || c == Char.ofNat 13

/-- JS `s.trim()`: strip leading and trailing whitespace. -/
def jsTrim (s : String) : String :=
  String.mk (((s.toList.dropWhile isJsSpace).reverse.dropWhile isJsSpace).reverse)

/-- A JS `Error` value: only its `name` and `message` are inspected by the code. -/
structure JsError where
  name : String
  message : String
deriving DecidableEq

/-- Prefix test on character lists (for `String.prototype.includes`). -/
def charsPrefix : List Char → List Char → Bool
  | [], _ => true
  | _ :: _, [] => false
  | a :: as, b :: bs => a == b && charsPrefix as bs

/-- Substring occurrence test on character lists. -/
def charsInfix (pat : List Char) : List Char → Bool
  | [] => charsPrefix pat []
  | c :: cs => charsPrefix pat (c :: cs) || charsInfix pat cs

/-- JS `s.includes(pat)`. -/
def strIncludes (s pat : String) : Bool :=
  charsInfix pat.toList s.toList

/-- Hex digit (uppercase, as produced by `encodeURIComponent`). -/
def hexDigit (n : Nat) : Char :=
  if n < 10 then Char.ofNat (48 + n) else Char.ofNat (55 + n)

/-- Percent-encoding of one UTF-8 byte. -/
def byteHex (b : UInt8) : List Char :=
  ['%', hexDigit (b.toNat / 16), hexDigit (b.toNat % 16)]

/-- Characters `encodeURIComponent` leaves unescaped:
`A-Z a-z 0-9 - _ . ! ~ * ' ( )`. -/
def isUnreservedChar (c : Char) : Bool :=
  c.isAlpha || c.isDigit || c == '-' || c == '_' || c == '.' || c == '!' ||
  c == '~' || c == '*' || c == Char.ofNat 39 || c == '(' || c == ')'

/-- The platform builtin `encodeURIComponent`: keep unreserved characters,
percent-encode the UTF-8 bytes of every other character. -/
def encodeURIComponent (s : String) : String :=
  String.mk (s.toList.flatMap fun c =>
    if isUnreservedChar c then [c] else (String.utf8EncodeChar c).flatMap byteHex)

/-- `data.data` of a provider-B (`qq`) resolution response: the nested object
whose `id` / `url` / `cover` fields the code reads (and which is stored whole
into `details`). -/
structure QQDetailData where
  id : Option Nat := none
  url : Option String := none
  cover : Option String := none
deriving DecidableEq

/-- A song value as it flows through the context: search stubs, resolved songs
and simplified history entries are all JS objects of this duck-typed shape,
with absent properties modelled as `none`. -/
structure Song where
  name : Option String := none
  singer : Option String := none
  platform : Option String := none
  cover : Option String := none
  searchTerm : Option String := none
  searchIndex : Option Nat := none
  requestUrl : Option String := none
  url : Option String := none
  id : Option Nat := none
  lyrics : Option (List String) := none
  details : Option QQDetailData := none
  quality : Option Nat := none
deriving DecidableEq

/-- `isSameSong` (MusicContext.js line 272): identity is the
`(name, singer, platform)` triple, compared with `===`. -/
def isSameSong (song1 song2 : Song) : Bool :=
  song1.name == song2.name &&
  song1.singer == song2.singer &&
  song1.platform == song2.platform

/-! ### UrlValidator -/

/-- ASCII alphabetic test. -/
def isAsciiAlpha (c : Char) : Bool :=
  (97 ≤ c.toNat && c.toNat ≤ 122) || (65 ≤ c.toNat && c.toNat ≤ 90)

/-- Characters allowed after the first character of a URL scheme. -/
def isSchemeChar (c : Char) : Bool :=
  isAsciiAlpha c || c.isDigit || c == '+' || c == '-' || c == '.'

/-- Scan scheme characters up to the first `:`. -/
def schemeScan (acc : List Char) : List Char → Option (List Char × List Char)
  | [] => none
  | c :: cs =>
    if c == ':' then some (acc, cs)
    else if isSchemeChar c then schemeScan (acc ++ [c]) cs
    else none

/-- Split off a URL scheme: a leading ASCII letter, then scheme characters,
then `:`; returns the scheme and the remainder after the colon. -/
def splitSchemeChars : List Char → Option (List Char × List Char)
  | [] => none
  | c :: cs => if isAsciiAlpha c then schemeScan [c] cs else none

/-- The WHATWG special schemes. -/
def specialSchemes : List String := ["http", "https", "ws", "wss", "ftp", "file"]

/-- True when the character terminates (or cannot start) an authority host. -/
def isHostDelim (c : Char) : Bool :=
  c == '/' || c == Char.ofNat 92 || c == '?' || c == '#'

/-- Modelled from the spec: the platform `new URL(...)` constructor is a
JS builtin, not part of this repository; following the spec's words
("attempts strict URL parse; returns false (never throws) on malformed input,
empty string, or missing scheme/authority as required by standard URL
syntax"), this models the WHATWG URL constructor's accept/reject decision:
an input is accepted iff it has a `scheme:` prefix and, for a special
non-`file` scheme, a nonempty host after the (possibly missing or repeated)
authority slashes.  Non-special schemes take an opaque path, so any
remainder is accepted. -/
def urlParseOk (s : String) : Bool :=
  match splitSchemeChars s.toList with
  | none => false
  | some (sch, rest) =>
    let schL := String.mk (sch.map Char.toLower)
    if specialSchemes.contains schL then
      if schL == "file" then true
      else
        let afterSlashes := rest.dropWhile fun c => c == '/' || c == Char.ofNat 92
        let host := afterSlashes.takeWhile fun c => !isHostDelim c
        !host.isEmpty
    else true

/-- `isValidUrl` (MusicContext.js line 432): `try { new URL(url); return true }
catch { return false }` — total by construction, never throws. -/
def isValidUrl (url : String) : Bool :=
  urlParseOk url

/-! ### HistoryStore -/

/-- The `&quality=` URL fragment: `quality ? "&quality=" + quality : ""`. -/
def qualityPart (q : Option Nat) : String :=
  match q with
  | some n => if n = 0 then "" else "&quality=" ++ toString n
  | none => ""

/-- The request URL rebuilt by `addToHistory` (MusicContext.js line 69) from
the song's fields, the context's search term and the context's
`selectedQuality`. -/
def histRequestUrl (ctxTerm : String) (selQ : Nat) (song : Song) : String :=
  "/api/sby?platform=" ++ strArg song.platform ++
  "&term=" ++ encodeURIComponent (jsOrStrD song.searchTerm ctxTerm) ++
  "&index=" ++ numArg song.searchIndex ++
  qualityPart (some selQ)

/-- The `simplifiedSong` object built by `addToHistory`
(MusicContext.js lines 71-80): identity + playable essentials + the rebuilt
`requestUrl`; all other properties are absent. -/
def simplifySong (ctxTerm : String) (selQ : Nat) (song : Song) : Song :=
  { id := song.id,
    name := song.name,
    singer := song.singer,
    cover := song.cover,
    url := song.url,
    lyrics := some (song.lyrics.getD []),
    platform := song.platform,
    requestUrl := some (histRequestUrl ctxTerm selQ song) }

/-- `addToHistory` (MusicContext.js lines 62-84) as a pure function of the
previous history list: drop same-identity entries, prepend the simplified
song, truncate to 50. -/
def addToHistory (ctxTerm : String) (selQ : Nat) (prev : List Song)
    (song : Song) : List Song :=
  let filtered := prev.filter fun s =>
    !(s.name == song.name && s.singer == song.singer && s.platform == song.platform)
  (simplifySong ctxTerm selQ song :: filtered).take 50

/-! ### ResultMerger -/

/-- `interleaveResults` (MusicContext.js lines 364-385), verbatim: per rank
`i` below the larger per-platform count, re-scan the combined list for the
song whose position among its platform's songs is `i` (the source compares
`songs.filter(...).indexOf(s) === i`; `indexOf` uses reference equality in
JS, rendered here as value equality — the call site tags every element with
a distinct `searchIndex`, so values coincide with references there). -/
def interleaveResults (songs : List Song) : List Song :=
  let maxLength :=
    max (songs.filter fun s => s.platform == some "wy").length
        (songs.filter fun s => s.platform == some "qq").length
  (List.range maxLength).flatMap fun i =>
    let wySong := songs.find? fun s =>
      s.platform == some "wy" &&
      (songs.filter fun x => x.platform == some "wy").indexOf s == i
    let qqSong := songs.find? fun s =>
      s.platform == some "qq" &&
      (songs.filter fun x => x.platform == some "qq").indexOf s == i
    wySong.toList ++ qqSong.toList

/-- Written from the spec's words, for comparison with `interleaveResults`:
"produces a single ordered sequence by alternating one item from A then one
from B, by their original rank, continuing with the tail of the longer list
once the shorter is exhausted". -/
def specRoundRobin : List Song → List Song → List Song
  | [], ys => ys
  | x :: xs, [] => x :: xs
  | x :: xs, y :: ys => x :: y :: specRoundRobin xs ys

/-! ### Search -/

/-- A raw provider search item; only the name/singer aliases that the tagging
code reads are modelled. -/
structure RawItem where
  name : Option String := none
  song : Option String := none
  singer : Option String := none
  author : Option String := none
deriving DecidableEq

/-- Provider A (`wy`) search response, flattening the
`{ success, data: { code, data } }` envelope. -/
structure WySearchResp where
  success : Bool
  code : Int
  data : List RawItem
deriving DecidableEq

/-- `qqResult.data.data` may be an array or a single object
(`Array.isArray(...) ? ... : [...]`). -/
inductive QQSearchData
  | arr (l : List RawItem)
  | single (x : RawItem)
deriving DecidableEq

/-- Provider B (`qq`) search response envelope. -/
structure QQSearchResp where
  success : Bool
  code : Int
  data : QQSearchData
deriving DecidableEq

/-- Normalization of the qq `data.data` field to a list. -/
def qqNormalize : QQSearchData → List RawItem
  | .arr l => l
  | .single x => [x]

/-- The `wy` tagging map of `onSearch` (MusicContext.js lines 108-114). -/
def tagWy (i : Nat) (x : RawItem) : Song :=
  { name := jsOrStr x.name x.song,
    singer := jsOrStr x.singer x.author,
    platform := some "wy",
    searchIndex := some i }

/-- The `qq` tagging map of `onSearch` (MusicContext.js lines 119-125). -/
def tagQQ (i : Nat) (x : RawItem) : Song :=
  { name := x.song,
    singer := x.singer,
    platform := some "qq",
    searchIndex := some i }

/-! ### Session state -/

/-- The session-scoped context state: the React state and refs of
`MusicProvider` that the modelled operations read and write.  The favorites
and play-queue collaborators, the audio element and the view flags live in
external hooks/components and are out of the modelled core. -/
structure Ctx where
  searchTerm : String
  songs : List Song
  currentSong : Option Song
  isPlaying : Bool
  isLoading : Bool
  selectedQuality : Nat
  playHistory : List Song
  abortRef : Option Nat
  aborted : List Nat
  nextCtrlId : Nat
  infoMsgs : List String
  errMsgs : List String
deriving DecidableEq

/-- `onSearch` (MusicContext.js lines 96-135) as a function of the two
provider fetch outcomes (`Except` error = the underlying promise rejected,
which makes `Promise.all` reject into the catch block). -/
def onSearch (c : Ctx) (wyR : Except JsError WySearchResp)
    (qqR : Except JsError QQSearchResp) : Ctx :=
  if jsTrim c.searchTerm == "" then c
  else
    match wyR, qqR with
    | .ok wy, .ok qq =>
      let wyPart := if wy.success && wy.code == 200
        then wy.data.enum.map fun p => tagWy p.1 p.2 else []
      let qqPart := if qq.success && qq.code == 200
        then ((qqNormalize qq.data).enum.map fun p => tagQQ p.1 p.2) else []
      { c with songs := interleaveResults (wyPart ++ qqPart) }
    | _, _ => { c with errMsgs := c.errMsgs ++ ["搜索失败"] }

/-! ### PlaybackResolver -/

/-- A resolution response payload, flattening `{ success, data }`:
`code`/`msg` and the provider-dependent fields the code reads
(`data.data` for qq, `data.mp3`/`data.img`/`data.lyric` for wy). -/
structure FetchPayload where
  success : Bool
  code : Int
  msg : Option String := none
  dataObj : Option QQDetailData := none
  mp3 : Option String := none
  img : Option String := none
  lyric : Option (List String) := none
deriving DecidableEq

/-- Outcome of an awaited `fetch(...).then(r => r.json())`. -/
inductive FetchOutcome
  | resolved (p : FetchPayload)
  | rejected (e : JsError)
deriving DecidableEq

/-- The fetch descriptor built by `tryPlay` (MusicContext.js line 166) when
the stub carries no usable `requestUrl`. -/
def buildPlayUrl (ctxTerm : String) (song : Song) (index quality : Option Nat) :
    String :=
  "/api/sby?platform=" ++ strArg song.platform ++
  "&term=" ++ encodeURIComponent (jsOrStrD song.searchTerm ctxTerm) ++
  "&index=" ++ numArg (jsOrNat song.searchIndex index) ++
  qualityPart quality

/-- The URL actually fetched by an attempt:
`song.requestUrl || buildPlayUrl ...`. -/
def attemptRequestUrl (ctxTerm : String) (song : Song)
    (index quality : Option Nat) : String :=
  jsOrStrD song.requestUrl (buildPlayUrl ctxTerm song index quality)

/-- `data.data.url` vs `data.mp3` (MusicContext.js line 173); reading `.url`
off an absent `data.data` throws a `TypeError`. -/
def newUrlOf (song : Song) (p : FetchPayload) : Except JsError (Option String) :=
  if song.platform == some "qq" then
    match p.dataObj with
    | none => .error { name := "TypeError", message := "Cannot read properties of undefined" }
    | some d => .ok d.url
  else .ok p.mp3

/-- The `updatedSong` record built on a successful attempt
(MusicContext.js lines 180-191). -/
def buildUpdatedSong (ctxTerm : String) (song : Song) (index quality : Option Nat)
    (p : FetchPayload) (newUrl : Option String) : Song :=
  { song with
    id := jsOrNat (p.dataObj.bind fun d => d.id) song.id,
    url := newUrl,
    cover := if song.platform == some "qq" then p.dataObj.bind fun d => d.cover
             else p.img,
    lyrics := some (if song.platform == some "qq" then [] else p.lyric.getD []),
    searchTerm := some (jsOrStrD song.searchTerm ctxTerm),
    searchIndex := jsOrNat song.searchIndex index,
    details := if song.platform == some "qq" then p.dataObj else none,
    requestUrl := some (attemptRequestUrl ctxTerm song index quality),
    quality := quality }

/-- The URL-validation gate of an attempt
(`!updatedSong.url || !isValidUrl(updatedSong.url)`). -/
def urlGateFails (u : Option String) : Bool :=
  match u with
  | none => true
  | some s => s == "" || !isValidUrl s

/-- The body of `tryPlay`'s `try` block (MusicContext.js lines 165-204):
`.ok none` is the same-URL short-circuit `return true`, `.ok (some u)` is a
commit of `u`, `.error e` is a thrown error reaching the catch. -/
def attemptCore (ctxTerm : String) (curUrl : Option String) (song : Song)
    (index quality : Option Nat) (p : FetchPayload) :
    Except JsError (Option Song) :=
  if p.success && p.code == 200 then
    match newUrlOf song p with
    | .error e => .error e
    | .ok newUrl =>
      if curUrl == newUrl then .ok none
      else
        let u := buildUpdatedSong ctxTerm song index quality p newUrl
        if urlGateFails u.url then
          .error { name := "Error", message := "无效的音频 URL" }
        else .ok (some u)
  else .error { name := "Error", message := jsOrStrD p.msg "获取歌曲详情失败" }

/-- Classified result of one `tryPlay` attempt. -/
inductive AttemptOut
  | shortCircuit
  | committed (u : Song)
  | failSecurity (e : JsError)
  | failAbort
  | failGeneric (e : JsError)
deriving DecidableEq

/-- The catch block of `tryPlay` (MusicContext.js lines 205-219):
security/CORS errors, abort errors, and everything else. -/
def classifyFailure (e : JsError) : AttemptOut :=
  if e.name == "SecurityError" || strIncludes e.message "CORS" then .failSecurity e
  else if e.name == "AbortError" then .failAbort
  else .failGeneric e

/-- One full `tryPlay` attempt given the fetch outcome. -/
def tryPlayAttempt (ctxTerm : String) (curUrl : Option String) (song : Song)
    (index quality : Option Nat) (r : FetchOutcome) : AttemptOut :=
  match r with
  | .rejected e => classifyFailure e
  | .resolved p =>
    match attemptCore ctxTerm curUrl song index quality p with
    | .ok none => .shortCircuit
    | .ok (some u) => .committed u
    | .error e => classifyFailure e

/-- `updateSongData` (MusicContext.js lines 253-269) restricted to the state
owned by this context: identity-match-and-replace in the history list and the
search-result list.  (The play-queue toggle-twice goes through the external
`usePlayQueue` collaborator and is outside the modelled state.) -/
def updateSongData (c : Ctx) (u : Song) : Ctx :=
  { c with
    playHistory := c.playHistory.map fun s => if isSameSong s u then u else s,
    songs := c.songs.map fun s => if isSameSong s u then u else s }

/-- `addToHistory` applied to the session state. -/
def addToHistoryCtx (c : Ctx) (song : Song) : Ctx :=
  { c with playHistory := addToHistory c.searchTerm c.selectedQuality c.playHistory song }

/-- Where a suspended resolution task is parked: awaiting its fetch, or
awaiting the 1-second retry delay. -/
inductive Phase
  | fetching
  | delaying
deriving DecidableEq

/-- One in-flight `onPlaySong` invocation past its prologue: its controller
token, arguments, and the local variables of the retry loop. -/
structure ResTask where
  ctrl : Nat
  song : Song
  index : Option Nat
  quality : Option Nat
  isRetry : Bool
  shouldAutoPlay : Bool
  retryCount : Nat
  lastError : Option JsError
  phase : Phase
deriving DecidableEq

/-- How a resolution terminated. -/
inductive DoneReason
  | committedOk
  | shortCircuited
  | abortedOut
  | failedSurfaced (msg : String)
deriving DecidableEq

/-- Result of resuming a suspended task: finished, or suspended again. -/
inductive StepOut
  | done (r : DoneReason)
  | suspended (t : ResTask)
deriving DecidableEq

/-- The `finally` block of `onPlaySong` (MusicContext.js lines 244-249):
null the shared abort ref if THIS task's controller was aborted (regardless
of whether the ref still belongs to this task), then clear the loading flag. -/
def finishTask (c : Ctx) (ctrl : Nat) : Ctx :=
  let c1 := if c.aborted.contains ctrl then { c with abortRef := none } else c
  { c1 with isLoading := false }

/-- The retry notice `正在重试 (n/3)...`. -/
def retryNotice (n : Nat) : String :=
  s!"正在重试 ({n}/3)..."

/-- The failure message surfaced when the retry budget is exhausted
(MusicContext.js lines 238-243): the message of
`lastError || new Error('播放失败')`, falling back to
`'播放失败，请尝试其他歌曲'` when that message is falsy.  (The latter string
is mojibake-corrupted in the source file; its intended text is used here.) -/
def surfacedFailMsg (lastError : Option JsError) : String :=
  match lastError with
  | some e => if e.message == "" then "播放失败，请尝试其他歌曲" else e.message
  | none => "播放失败"

/-- End of the retry loop with the budget exhausted: throw
`lastError || new Error('播放失败')` into the outer catch, which surfaces
`surfacedFailMsg` and runs the `finally` block. -/
def exhaustFail (c : Ctx) (t : ResTask) : Ctx × StepOut :=
  let msg := surfacedFailMsg t.lastError
  (finishTask { c with errMsgs := c.errMsgs ++ [msg] } t.ctrl,
   .done (.failedSurfaced msg))

/-- The tail of the retry loop after a failed, non-aborted attempt
(MusicContext.js lines 232-237): increment the count; below the budget,
surface the retry notice and suspend for the 1-second delay; otherwise fail
out. -/
def retryAdvance (c : Ctx) (t : ResTask) : Ctx × StepOut :=
  let n := t.retryCount + 1
  if n < 3 then
    ({ c with infoMsgs := c.infoMsgs ++ [retryNotice n] },
     .suspended { t with retryCount := n, phase := .delaying })
  else exhaustFail c { t with retryCount := n }

/-- Resume a task suspended at its fetch with the environment's outcome.
A fetch whose controller has been aborted before its continuation runs
rejects with `AbortError` (single-threaded event-loop semantics: the abort
is requested synchronously while the fetch is still pending). -/
def resumeFetch (c : Ctx) (t : ResTask) (r : FetchOutcome) : Ctx × StepOut :=
  let rEff := if c.aborted.contains t.ctrl
    then FetchOutcome.rejected { name := "AbortError", message := "The operation was aborted" }
    else r
  match tryPlayAttempt c.searchTerm (c.currentSong.bind fun s => s.url)
      t.song t.index t.quality rEff with
  | .committed u =>
    let c1 := updateSongData c u
    let c2 := { c1 with currentSong := some u, isPlaying := t.shouldAutoPlay }
    let c3 := addToHistoryCtx c2 u
    (finishTask c3 t.ctrl, .done .committedOk)
  | .shortCircuit => (finishTask c t.ctrl, .done .shortCircuited)
  | .failAbort =>
    if c.aborted.contains t.ctrl then (finishTask c t.ctrl, .done .abortedOut)
    else retryAdvance c t
  | .failSecurity _ =>
    let c1 := { c with errMsgs := c.errMsgs ++ ["音频加载失败，请尝试其他歌曲"],
                       isPlaying := false }
    if c1.aborted.contains t.ctrl then (finishTask c1 t.ctrl, .done .abortedOut)
    else retryAdvance c1 t
  | .failGeneric e =>
    if c.aborted.contains t.ctrl then (finishTask c t.ctrl, .done .abortedOut)
    else retryAdvance c { t with lastError := some e }

/-- Resume a task suspended at the retry delay.  If its controller was
aborted during the delay, the next fetch rejects immediately with
`AbortError` and the loop returns; otherwise the next attempt's fetch is
issued. -/
def resumeDelay (c : Ctx) (t : ResTask) : Ctx × StepOut :=
  if c.aborted.contains t.ctrl then (finishTask c t.ctrl, .done .abortedOut)
  else (c, .suspended { t with phase := .fetching })

/-- The synchronous prologue of `onPlaySong` (MusicContext.js lines 138-163
and 222): the loading guard, controller allocation, the same-URL no-op, the
abort of the previous controller, the auto-play decision and the loading
flag; returns the spawned task (suspended at its first fetch), or `none`
when the call returned without starting a resolution. -/
def spawn (c : Ctx) (song : Song) (index quality : Option Nat)
    (isRetry : Bool) : Ctx × Option ResTask :=
  if c.isLoading && !isRetry then (c, none)
  else
    let ctrlId := c.nextCtrlId
    let c0 := { c with nextCtrlId := c.nextCtrlId + 1 }
    let mk : ResTask :=
      { ctrl := ctrlId, song := song, index := index, quality := quality,
        isRetry := isRetry,
        shouldAutoPlay := if isRetry then c.isPlaying else true,
        retryCount := 0, lastError := none, phase := .fetching }
    match c.abortRef with
    | some prev =>
      if (c.currentSong.bind fun s => s.url) == song.url && !isRetry then (c0, none)
      else
        ({ c0 with aborted := c0.aborted ++ [prev], abortRef := some ctrlId,
                   isLoading := true },
         some mk)
    | none =>
      ({ c0 with abortRef := some ctrlId, isLoading := true }, some mk)

/-- Run one resolution to completion (or until the supplied outcomes run
out), with no interference from other events: deliver each fetch outcome,
and pass through the retry delay when the task suspends there.  Returns the
final state, the termination reason (if reached), the number of fetch
attempts made and the number of inter-attempt delays taken. -/
def runLoop (c : Ctx) (t : ResTask) :
    List FetchOutcome → Ctx × Option DoneReason × Nat × Nat
  | [] => (c, none, 0, 0)
  | r :: rs =>
    match resumeFetch c t r with
    | (c1, .done d) => (c1, some d, 1, 0)
    | (c1, .suspended t1) =>
      match resumeDelay c1 t1 with
      | (c2, .done d) => (c2, some d, 1, 1)
      | (c2, .suspended t2) =>
        let rest := runLoop c2 t2 rs
        (rest.1, rest.2.1, rest.2.2.1 + 1, rest.2.2.2 + 1)

/-! ### Concrete session states and inputs used by witnesses and
counterexamples -/

/-- A fresh session: nothing persisted, nothing in flight. -/
def ctxFresh : Ctx :=
  { searchTerm := "a", songs := [], currentSong := none,
    isPlaying := false, isLoading := false, selectedQuality := 5,
    playHistory := [], abortRef := none, aborted := [], nextCtrlId := 0,
    infoMsgs := [], errMsgs := [] }

/-- A `wy` search stub. -/
def songZ : Song :=
  { name := some "z", singer := some "sz", platform := some "wy",
    searchIndex := some 0, searchTerm := some "a" }

/-- A second `wy` search stub. -/
def songA : Song :=
  { name := some "A", singer := some "sa", platform := some "wy",
    searchIndex := some 1, searchTerm := some "a" }

/-- A third `wy` search stub. -/
def songB : Song :=
  { name := some "B", singer := some "sb", platform := some "wy",
    searchIndex := some 2, searchTerm := some "a" }

/-- A successful `wy` resolution payload with a valid stream URL. -/
def okWyPayload : FetchPayload :=
  { success := true, code := 200, mp3 := some "http://h/a.mp3",
    img := some "http://h/a.jpg", lyric := some ["line1"] }

/-- A rejected fetch (network failure). -/
def failNet : FetchOutcome :=
  .rejected { name := "TypeError", message := "Failed to fetch" }

/-- A rejected fetch with a cross-origin security error. -/
def secErr : FetchOutcome :=
  .rejected { name := "SecurityError", message := "blocked" }

/-- C1 failing trace, step 1: resolution Z starts on a fresh session. -/
def c1Step1 : Ctx × Option ResTask :=
  spawn ctxFresh songZ (some 0) (some 5) false

/-- C1 failing trace: the task of resolution Z. -/
def c1TaskZ : ResTask :=
  { ctrl := 0, song := songZ, index := some 0, quality := some 5,
    isRetry := false, shouldAutoPlay := true, retryCount := 0,
    lastError := none, phase := .fetching }

/-- C1 failing trace, step 2: resolution A starts as a retry while Z is in
flight, aborting Z. -/
def c1Step2 : Ctx × Option ResTask :=
  spawn c1Step1.1 songA (some 1) (some 5) true

/-- C1 failing trace: the task of resolution A. -/
def c1TaskA : ResTask :=
  { ctrl := 1, song := songA, index := some 1, quality := some 5,
    isRetry := true, shouldAutoPlay := false, retryCount := 0,
    lastError := none, phase := .fetching }

/-- C1 failing trace, step 3: Z's aborted fetch rejects; Z's `finally` block
nulls the shared abort ref (which now belongs to A) and clears the loading
flag. -/
def c1Step3 : Ctx × StepOut :=
  resumeFetch c1Step2.1 c1TaskZ
    (.rejected { name := "AbortError", message := "The user aborted a request" })

/-- C1 failing trace, step 4: resolution B starts while A is still in
flight; the guard passes and no cancellation of A is requested. -/
def c1Step4 : Ctx × Option ResTask :=
  spawn c1Step3.1 songB (some 2) (some 5) false

/-- C1 failing trace, step 5: A's fetch succeeds and A commits, after B was
started. -/
def c1Step5 : Ctx × StepOut :=
  resumeFetch c1Step4.1 c1TaskA (.resolved okWyPayload)

/-- A committed current song whose persisted `url` is the empty string (the
session is hydrated from `localStorage`, whose content is not validated). -/
def hydratedEmptyUrlSong : Song :=
  { name := some "c", singer := some "sc", platform := some "qq", url := some "" }

/-- C4 counterexample state: fresh session hydrated with
`hydratedEmptyUrlSong`. -/
def c4Ctx : Ctx := { ctxFresh with currentSong := some hydratedEmptyUrlSong }

/-- C4 counterexample stub (provider B). -/
def c4Song : Song :=
  { name := some "d", singer := some "sd", platform := some "qq",
    searchIndex := some 0, searchTerm := some "a" }

/-- C4 counterexample payload: a successful fetch whose yielded stream URL is
the empty string. -/
def c4Payload : FetchPayload :=
  { success := true, code := 200, dataObj := some { url := some "" } }

/-- C4 counterexample, spawn step. -/
def c4Spawn : Ctx × Option ResTask := spawn c4Ctx c4Song (some 0) (some 5) false

/-- C4 counterexample task. -/
def c4Task : ResTask :=
  { ctrl := 0, song := c4Song, index := some 0, quality := some 5,
    isRetry := false, shouldAutoPlay := true, retryCount := 0,
    lastError := none, phase := .fetching }

/-- C7 counterexample, spawn step: resolution of `songA` with quality 9
while the context's `selectedQuality` is 5. -/
def c7Spawn : Ctx × Option ResTask := spawn ctxFresh songA (some 1) (some 9) false

/-- C7 counterexample task. -/
def c7Task : ResTask :=
  { ctrl := 0, song := songA, index := some 1, quality := some 9,
    isRetry := false, shouldAutoPlay := true, retryCount := 0,
    lastError := none, phase := .fetching }

/-- C7 counterexample, commit step. -/
def c7Commit : Ctx × StepOut := resumeFetch c7Spawn.1 c7Task (.resolved okWyPayload)

/-- A provider-B raw search item. -/
def qqItem : RawItem := { song := some "q1", singer := some "qs" }

/-- A fresh task used by witnesses: the resolution of `songA` just spawned
on `ctxFresh`. -/
def witTask : ResTask :=
  { ctrl := 0, song := songA, index := some 1, quality := some 5,
    isRetry := false, shouldAutoPlay := true, retryCount := 0,
    lastError := none, phase := .fetching }

/-- The context right after `witTask` was spawned. -/
def witCtx : Ctx :=
  { ctxFresh with abortRef := some 0, isLoading := true, nextCtrlId := 1 }

/-- A successful `qq` resolution payload with a valid stream URL. -/
def okQQPayload : FetchPayload :=
  { success := true, code := 200,
    dataObj := some { id := some 7, url := some "http://h/q.mp3",
                      cover := some "http://h/q.jpg" } }

/-- A `qq` search stub used by witnesses. -/
def songQ : Song :=
  { name := some "Q", singer := some "sq", platform := some "qq",
    searchIndex := some 0, searchTerm := some "a" }

/-- A task resolving the `qq` stub `songQ`. -/
def witTaskQ : ResTask :=
  { ctrl := 0, song := songQ, index := some 0, quality := some 5,
    isRetry := false, shouldAutoPlay := true, retryCount := 0,
    lastError := none, phase := .fetching }

/-- Rank-indexed form of the interleave loop: for each rank below the larger
length, the item of that rank from each list (used as a stepping stone
between `interleaveResults` and `specRoundRobin`). -/
def rankJoin (as bs : List Song) : List Song :=
  (List.range (max as.length bs.length)).flatMap fun i =>
    as[i]?.toList ++ bs[i]?.toList

/-! ## Theorems -/

/-- C9: for every input string the URL validator is a total boolean function
(it never throws); it returns `false` on the empty string, on any input
without a `scheme:` prefix, and on any special-scheme input whose required
authority (host) is missing; concrete well-formed and malformed inputs
behave as specified. -/
theorem c9_url_validator_total_and_rejects :
    (∀ s : String, isValidUrl s = true ∨ isValidUrl s = false) ∧
    isValidUrl "" = false ∧
    (∀ s : String, splitSchemeChars s.toList = none → isValidUrl s = false) ∧
    (∀ (s : String) (sch rest : List Char),
      splitSchemeChars s.toList = some (sch, rest) →
      specialSchemes.contains (String.mk (sch.map Char.toLower)) = true →
      (String.mk (sch.map Char.toLower) == "file") = false →
      ((rest.dropWhile fun c => c == '/' || c == Char.ofNat 92).takeWhile
        fun c => !isHostDelim c).isEmpty = true →
      isValidUrl s = false) ∧
    isValidUrl "http://example.com/a.mp3" = true ∧
    isValidUrl "http://" = false ∧
    isValidUrl "noscheme" = false := by
  refine ⟨fun s => ?_, by decide, fun s h => ?_, fun s sch rest h1 h2 h3 h4 => ?_,
    by decide, by decide, by decide⟩
  · cases h : isValidUrl s
    · exact Or.inr rfl
    · exact Or.inl rfl
  · simp only [isValidUrl, urlParseOk, h]
  · simp only [isValidUrl, urlParseOk, h1, h2, if_true, h3, Bool.if_false_left]
    simp only [List.isEmpty_iff] at h4
    simp [h4]

/-- C9 witness: the validator's general rejection clauses instantiated at
concrete inputs, with their hypotheses discharged by computation. -/
theorem c9_witness :
    isValidUrl "noscheme" = false ∧ isValidUrl "http://" = false :=
  ⟨c9_url_validator_total_and_rejects.2.2.1 "noscheme" (by decide),
   c9_url_validator_total_and_rejects.2.2.2.1 "http://" ['h', 't', 't', 'p']
     ['/', '/'] (by decide) (by decide) (by decide) (by decide)⟩

/-- C6: for every history state and added song, `addToHistory` removes every
existing entry with the same `(name, singer, platform)` identity, prepends
the projection (`simplifySong`) of the new song at the front, keeps the
surviving old entries in order (truncated past the 50-cap, oldest dropped),
and caps the result at exactly `min (kept + 1) 50` entries. -/
theorem c6_history_add (term : String) (selQ : Nat) (prev : List Song) (song : Song) :
    (addToHistory term selQ prev song).head? = some (simplifySong term selQ song) ∧
    (addToHistory term selQ prev song).tail =
      (prev.filter fun s =>
        !(s.name == song.name && s.singer == song.singer &&
          s.platform == song.platform)).take 49 ∧
    (addToHistory term selQ prev song).length =
      min ((prev.filter fun s =>
        !(s.name == song.name && s.singer == song.singer &&
          s.platform == song.platform)).length + 1) 50 ∧
    (∀ e ∈ (addToHistory term selQ prev song).tail, isSameSong e song = false) ∧
    List.Sublist (addToHistory term selQ prev song).tail prev := by
  have hdef : addToHistory term selQ prev song =
      simplifySong term selQ song ::
        (prev.filter fun s =>
          !(s.name == song.name && s.singer == song.singer &&
            s.platform == song.platform)).take 49 := by
    simp only [addToHistory, List.take_succ_cons]
  refine ⟨by rw [hdef]; rfl, by rw [hdef]; rfl, ?_, ?_, ?_⟩
  · rw [hdef]
    simp only [List.length_cons, List.length_take]
    omega
  · intro e he
    rw [hdef] at he
    simp only [List.tail_cons] at he
    have he2 := List.mem_of_mem_take he
    have hnot := (List.mem_filter.mp he2).2
    have hb : (e.name == song.name && e.singer == song.singer &&
        e.platform == song.platform) = false := by
      cases hbb : (e.name == song.name && e.singer == song.singer &&
          e.platform == song.platform)
      · rfl
      · rw [hbb] at hnot
        exact absurd hnot (by decide)
    show (e.name == song.name && e.singer == song.singer &&
      e.platform == song.platform) = false
    exact hb
  · rw [hdef]
    simp only [List.tail_cons]
    exact (List.take_sublist _ _).trans (List.filter_sublist _)

/-- C6 witness: the history contract at a concrete state — a history holding
an old entry of the same identity and one of a different identity. -/
theorem c6_history_add_witness :
    (∀ e ∈ (addToHistory "a" 5
        [simplifySong "a" 5 songA, simplifySong "a" 5 songB] songA).tail,
      isSameSong e songA = false) ∧
    (addToHistory "a" 5
        [simplifySong "a" 5 songA, simplifySong "a" 5 songB] songA).head? =
      some (simplifySong "a" 5 songA) :=
  ⟨(c6_history_add "a" 5 [simplifySong "a" 5 songA, simplifySong "a" 5 songB]
      songA).2.2.2.1,
   (c6_history_add "a" 5 [simplifySong "a" 5 songA, simplifySong "a" 5 songB]
      songA).1⟩

/-- `find?` only depends on the predicate's values on the list's members. -/
theorem find_congr_mem {α : Type} (l : List α) (p q : α → Bool)
    (h : ∀ a ∈ l, p a = q a) : l.find? p = l.find? q := by
  induction l with
  | nil => rfl
  | cons x xs ih =>
    simp only [List.find?]
    rw [h x (List.mem_cons_self x xs)]
    cases q x
    · exact ih fun a ha => h a (List.mem_cons_of_mem x ha)
    · rfl

/-- The re-scan performed by `interleaveResults`: searching the combined
list for the element whose rank among the `p`-elements is `i` returns
exactly the `i`-th element of the filtered list, provided the filtered list
has no duplicates (the JS call site compares object references, which are
pairwise distinct; values are pairwise distinct there as well since every
tagged song carries a distinct `searchIndex`). -/
theorem find_rank (l : List Song) (p : Song → Bool) :
    ∀ (F : List Song) (i : Nat), l.filter p = F → F.Nodup →
    (l.find? fun s => p s && F.indexOf s == i) = F[i]? := by
  induction l with
  | nil =>
    intro F i hF _
    simp only [List.filter_nil] at hF
    subst hF
    rfl
  | cons x l' ih =>
    intro F i hF hnd
    cases hpx : p x with
    | false =>
      have hF' : l'.filter p = F := by
        rw [← hF, List.filter_cons, hpx]
        simp
      rw [List.find?_cons]
      simp only [hpx, Bool.false_and]
      exact ih F i hF' hnd
    | true =>
      have hF' : F = x :: l'.filter p := by
        rw [← hF, List.filter_cons, hpx]
        simp
      subst hF'
      have hx : x ∉ l'.filter p := (List.nodup_cons.mp hnd).1
      have hnd' : (l'.filter p).Nodup := (List.nodup_cons.mp hnd).2
      have hidx : (x :: l'.filter p).indexOf x = 0 := List.indexOf_cons_self x _
      cases i with
      | zero =>
        rw [List.find?_cons]
        simp only [hpx, Bool.true_and, hidx]
        simp
      | succ j =>
        rw [List.find?_cons]
        simp only [hpx, Bool.true_and, hidx]
        have hhead : ((0 : Nat) == j + 1) = false := by simp
        rw [hhead]
        have hcongr : l'.find? (fun s => p s && (x :: l'.filter p).indexOf s == j + 1) =
            l'.find? (fun s => p s && (l'.filter p).indexOf s == j) := by
          apply find_congr_mem
          intro s hs
          cases hps : p s with
          | false => simp [hps]
          | true =>
            have hsF : s ∈ l'.filter p := List.mem_filter.mpr ⟨hs, hps⟩
            have hsx : x ≠ s := fun h => hx (h ▸ hsF)
            have : (x :: l'.filter p).indexOf s = (l'.filter p).indexOf s + 1 := by
              rw [List.indexOf_cons]
              have : (x == s) = false := beq_eq_false_iff_ne.mpr hsx
              rw [this]
              rfl
            rw [this]
            simp [hps]
        rw [hcongr, ih (l'.filter p) j rfl hnd']
        rw [List.getElem?_cons_succ]

/-- Joining a list's own elements by rank reproduces the list. -/
theorem rank_get_self : ∀ bs : List Song,
    (List.range bs.length).flatMap (fun i => bs[i]?.toList) = bs := by
  intro bs
  induction bs with
  | nil => rfl
  | cons b bs ih =>
    rw [List.length_cons, List.range_succ_eq_map, List.flatMap_cons,
      List.flatMap_map]
    simp only [List.getElem?_cons_zero, List.getElem?_cons_succ]
    rw [ih]
    rfl

/-- `rankJoin` with an empty left list is the right list. -/
theorem rankJoin_nil_left (bs : List Song) : rankJoin [] bs = bs := by
  simp only [rankJoin, List.length_nil, Nat.zero_max, List.getElem?_nil,
    Option.toList_none, List.nil_append]
  exact rank_get_self bs

/-- `rankJoin` with an empty right list is the left list. -/
theorem rankJoin_nil_right (as : List Song) : rankJoin as [] = as := by
  simp only [rankJoin, List.length_nil, Nat.max_zero, List.getElem?_nil,
    Option.toList_none, List.append_nil]
  exact rank_get_self as

/-- `rankJoin` consumes one element of each list per rank. -/
theorem rankJoin_cons_cons (a b : Song) (as bs : List Song) :
    rankJoin (a :: as) (b :: bs) = a :: b :: rankJoin as bs := by
  simp only [rankJoin, List.length_cons]
  rw [show max (as.length + 1) (bs.length + 1) = max as.length bs.length + 1 by
    omega]
  rw [List.range_succ_eq_map, List.flatMap_cons, List.flatMap_map]
  simp only [List.getElem?_cons_zero, List.getElem?_cons_succ]
  rfl

/-- The rank-indexed join coincides with the spec's round-robin alternation. -/
theorem rankJoin_eq_specRoundRobin : ∀ as bs : List Song,
    rankJoin as bs = specRoundRobin as bs := by
  intro as
  induction as with
  | nil =>
    intro bs
    rw [rankJoin_nil_left]
    rfl
  | cons a as ih =>
    intro bs
    cases bs with
    | nil =>
      rw [rankJoin_nil_right]
      rfl
    | cons b bs =>
      rw [rankJoin_cons_cons, ih]
      rfl

/-- The round-robin merge has additive length. -/
theorem specRoundRobin_length : ∀ as bs : List Song,
    (specRoundRobin as bs).length = as.length + bs.length := by
  intro as
  induction as with
  | nil =>
    intro bs
    simp [specRoundRobin]
  | cons a as ih =>
    intro bs
    cases bs with
    | nil => simp [specRoundRobin]
    | cons b bs =>
      simp only [specRoundRobin, List.length_cons, ih]
      omega

/-- Filtering the round-robin merge by a tag held by all left elements and no
right element recovers the left list. -/
theorem specRoundRobin_filter_left (p : Song → Bool) : ∀ (as bs : List Song),
    (∀ a ∈ as, p a = true) → (∀ b ∈ bs, p b = false) →
    (specRoundRobin as bs).filter p = as := by
  intro as
  induction as with
  | nil =>
    intro bs _ hbs
    simp only [specRoundRobin]
    exact List.filter_eq_nil_iff.mpr fun b hb => by simp [hbs b hb]
  | cons a as ih =>
    intro bs has hbs
    cases bs with
    | nil =>
      simp only [specRoundRobin]
      exact List.filter_eq_self.mpr has
    | cons b bs =>
      simp only [specRoundRobin, List.filter_cons,
        has a (List.mem_cons_self a _), hbs b (List.mem_cons_self b _),
        if_true]
      simp only [Bool.false_eq_true, if_false]
      rw [ih bs (fun x hx => has x (List.mem_cons_of_mem a hx))
        (fun x hx => hbs x (List.mem_cons_of_mem b hx))]

/-- Filtering the round-robin merge by a tag held by all right elements and
no left element recovers the right list. -/
theorem specRoundRobin_filter_right (p : Song → Bool) : ∀ (as bs : List Song),
    (∀ a ∈ as, p a = false) → (∀ b ∈ bs, p b = true) →
    (specRoundRobin as bs).filter p = bs := by
  intro as
  induction as with
  | nil =>
    intro bs _ hbs
    simp only [specRoundRobin]
    exact List.filter_eq_self.mpr hbs
  | cons a as ih =>
    intro bs has hbs
    cases bs with
    | nil =>
      simp only [specRoundRobin]
      exact List.filter_eq_nil_iff.mpr fun x hx => by simp [has x hx]
    | cons b bs =>
      simp only [specRoundRobin, List.filter_cons,
        has a (List.mem_cons_self a _), hbs b (List.mem_cons_self b _),
        if_true]
      simp only [Bool.false_eq_true, if_false]
      rw [ih bs (fun x hx => has x (List.mem_cons_of_mem a hx))
        (fun x hx => hbs x (List.mem_cons_of_mem b hx))]

/-- The quadratic re-scan of `interleaveResults`, applied to a `wy`-tagged
list followed by a `qq`-tagged list, equals the rank-indexed join. -/
theorem interleave_eq_rankJoin (A B : List Song)
    (hA : ∀ a ∈ A, a.platform = some "wy")
    (hB : ∀ b ∈ B, b.platform = some "qq")
    (nA : A.Nodup) (nB : B.Nodup) :
    interleaveResults (A ++ B) = rankJoin A B := by
  have hpA : ∀ a ∈ A, (a.platform == some "wy") = true := by
    intro a ha
    rw [hA a ha]
    decide
  have hpB : ∀ b ∈ B, (b.platform == some "wy") = false := by
    intro b hb
    rw [hB b hb]
    decide
  have hqA : ∀ a ∈ A, (a.platform == some "qq") = false := by
    intro a ha
    rw [hA a ha]
    decide
  have hqB : ∀ b ∈ B, (b.platform == some "qq") = true := by
    intro b hb
    rw [hB b hb]
    decide
  have hfw : (A ++ B).filter (fun s => s.platform == some "wy") = A := by
    rw [List.filter_append, List.filter_eq_self.mpr hpA,
      List.filter_eq_nil_iff.mpr fun b hb => by simp [hpB b hb],
      List.append_nil]
  have hfq : (A ++ B).filter (fun s => s.platform == some "qq") = B := by
    rw [List.filter_append, List.filter_eq_self.mpr hqB,
      List.filter_eq_nil_iff.mpr fun a ha => by simp [hqA a ha],
      List.nil_append]
  simp only [interleaveResults, hfw, hfq, rankJoin]
  congr 1
  funext i
  rw [find_rank (A ++ B) (fun s => s.platform == some "wy") A i hfw nA,
    find_rank (A ++ B) (fun s => s.platform == some "qq") B i hfq nB]

/-- C8: for all provider result lists A (all tagged `wy`) and B (all tagged
`qq`) with pairwise-distinct elements (JS compares object references, which
are pairwise distinct; the call site also tags each element with a distinct
`searchIndex`), `interleaveResults` on their concatenation equals the
spec's round-robin alternation by rank, has length `len A + len B`, and
preserves each source list's internal relative order (filtering the output
by either tag recovers that source list exactly). -/
theorem c8_interleave_round_robin (A B : List Song)
    (hA : ∀ a ∈ A, a.platform = some "wy")
    (hB : ∀ b ∈ B, b.platform = some "qq")
    (nA : A.Nodup) (nB : B.Nodup) :
    interleaveResults (A ++ B) = specRoundRobin A B ∧
    (interleaveResults (A ++ B)).length = A.length + B.length ∧
    (interleaveResults (A ++ B)).filter (fun s => s.platform == some "wy") = A ∧
    (interleaveResults (A ++ B)).filter (fun s => s.platform == some "qq") = B := by
  have heq : interleaveResults (A ++ B) = specRoundRobin A B :=
    (interleave_eq_rankJoin A B hA hB nA nB).trans
      (rankJoin_eq_specRoundRobin A B)
  refine ⟨heq, ?_, ?_, ?_⟩
  · rw [heq]
    exact specRoundRobin_length A B
  · rw [heq]
    exact specRoundRobin_filter_left _ A B
      (fun a ha => by rw [hA a ha]; decide)
      (fun b hb => by rw [hB b hb]; decide)
  · rw [heq]
    exact specRoundRobin_filter_right _ A B
      (fun a ha => by rw [hA a ha]; decide)
      (fun b hb => by rw [hB b hb]; decide)

/-- C8 witness: the spec's end-to-end example — three `wy` results and one
`qq` result merge to `[A0, B0, A1, A2]`. -/
theorem c8_interleave_witness :
    interleaveResults ([songZ, songA, songB] ++ [songQ]) =
      specRoundRobin [songZ, songA, songB] [songQ] ∧
    (interleaveResults ([songZ, songA, songB] ++ [songQ])).length = 3 + 1 :=
  have h := c8_interleave_round_robin [songZ, songA, songB] [songQ]
    (by decide) (by decide) (by decide) (by decide)
  ⟨h.1, h.2.1⟩

/-- C5 counterexample: a search where provider A's request rejects (network
failure) while provider B's request succeeds with one usable result does NOT
produce a result list built from provider B's results — the song list is
left unchanged (empty) and the search surfaces the failure notice instead. -/
theorem c5_counterexample_rejected_request :
    (onSearch ctxFresh
        (.error { name := "TypeError", message := "Failed to fetch" })
        (.ok { success := true, code := 200, data := .arr [qqItem] })).songs
      = ctxFresh.songs ∧
    ctxFresh.songs = [] ∧
    interleaveResults ((qqNormalize (.arr [qqItem])).enum.map
        fun p => tagQQ p.1 p.2) ≠ [] ∧
    (onSearch ctxFresh
        (.error { name := "TypeError", message := "Failed to fetch" })
        (.ok { success := true, code := 200, data := .arr [qqItem] })).errMsgs
      = ["搜索失败"] := by
  refine ⟨by decide, rfl, by decide, by decide⟩

/-- C5 as amended: graceful degradation applies at the envelope level only —
when both provider requests resolve, a response with a non-success envelope
(`success` false or `code ≠ 200`) contributes zero results and the other
provider's results are still used; but when either provider's request
rejects, `Promise.all` rejects and the whole search fails: the error notice
is surfaced and the song list is left unchanged. -/
theorem c5_amended_envelope_degradation (c : Ctx)
    (hterm : (jsTrim c.searchTerm == "") = false) :
    (∀ (wy : WySearchResp) (qq : QQSearchResp),
      (wy.success && wy.code == 200) = false →
      (qq.success && qq.code == 200) = true →
      (onSearch c (.ok wy) (.ok qq)).songs =
        interleaveResults ((qqNormalize qq.data).enum.map fun p => tagQQ p.1 p.2) ∧
      (onSearch c (.ok wy) (.ok qq)).errMsgs = c.errMsgs) ∧
    (∀ (wy : WySearchResp) (qq : QQSearchResp),
      (wy.success && wy.code == 200) = true →
      (qq.success && qq.code == 200) = false →
      (onSearch c (.ok wy) (.ok qq)).songs =
        interleaveResults (wy.data.enum.map fun p => tagWy p.1 p.2) ∧
      (onSearch c (.ok wy) (.ok qq)).errMsgs = c.errMsgs) ∧
    (∀ (e : JsError) (qqR : Except JsError QQSearchResp),
      (onSearch c (.error e) qqR).songs = c.songs ∧
      (onSearch c (.error e) qqR).errMsgs = c.errMsgs ++ ["搜索失败"]) ∧
    (∀ (e : JsError) (wyR : Except JsError WySearchResp),
      (onSearch c wyR (.error e)).songs = c.songs ∧
      (onSearch c wyR (.error e)).errMsgs = c.errMsgs ++ ["搜索失败"]) := by
  refine ⟨fun wy qq h1 h2 => ?_, fun wy qq h1 h2 => ?_,
    fun e qqR => ?_, fun e wyR => ?_⟩
  · constructor
    · simp only [onSearch, hterm, Bool.false_eq_true, if_false, h1, h2,
        if_true, List.nil_append]
    · simp only [onSearch, hterm, Bool.false_eq_true, if_false, h1, h2]
  · constructor
    · simp only [onSearch, hterm, Bool.false_eq_true, if_false, h1, h2,
        if_true, List.append_nil]
    · simp only [onSearch, hterm, Bool.false_eq_true, if_false, h1, h2]
  · cases qqR with
    | ok q => exact ⟨by simp only [onSearch, hterm, Bool.false_eq_true, if_false],
        by simp only [onSearch, hterm, Bool.false_eq_true, if_false]⟩
    | error e2 => exact ⟨by simp only [onSearch, hterm, Bool.false_eq_true, if_false],
        by simp only [onSearch, hterm, Bool.false_eq_true, if_false]⟩
  · cases wyR with
    | ok w => exact ⟨by simp only [onSearch, hterm, Bool.false_eq_true, if_false],
        by simp only [onSearch, hterm, Bool.false_eq_true, if_false]⟩
    | error e2 => exact ⟨by simp only [onSearch, hterm, Bool.false_eq_true, if_false],
        by simp only [onSearch, hterm, Bool.false_eq_true, if_false]⟩

/-- C5 witness: the amended behavior at concrete inputs — a bad `wy`
envelope with one usable `qq` result yields exactly the tagged `qq`
result. -/
theorem c5_amended_witness :
    (onSearch ctxFresh (.ok { success := false, code := 200, data := [] })
        (.ok { success := true, code := 200, data := .arr [qqItem] })).songs =
      interleaveResults ((qqNormalize (.arr [qqItem])).enum.map
        fun p => tagQQ p.1 p.2) ∧
    (onSearch ctxFresh (.ok { success := false, code := 200, data := [] })
        (.ok { success := true, code := 200, data := .arr [qqItem] })).errMsgs =
      ctxFresh.errMsgs :=
  (c5_amended_envelope_degradation ctxFresh (by decide)).1
    { success := false, code := 200, data := [] }
    { success := true, code := 200, data := .arr [qqItem] }
    (by decide) (by decide)

/-- `classifyFailure` never reports a commit or a short-circuit. -/
theorem classifyFailure_not_committed (e : JsError) (u : Song) :
    classifyFailure e ≠ .committed u ∧ classifyFailure e ≠ .shortCircuit := by
  unfold classifyFailure
  split
  · exact ⟨by simp, by simp⟩
  · split
    · exact ⟨by simp, by simp⟩
    · exact ⟨by simp, by simp⟩

/-- Inversion of a committing attempt: the fetch resolved with a successful
envelope, the provider-mapped URL differs from the current song's URL, the
committed record is exactly `buildUpdatedSong`, and its URL passes the
validation gate. -/
theorem attempt_committed_inv (ctxTerm : String) (curUrl : Option String)
    (song : Song) (index quality : Option Nat) (r : FetchOutcome) (u : Song)
    (h : tryPlayAttempt ctxTerm curUrl song index quality r = .committed u) :
    ∃ (p : FetchPayload) (newUrl : Option String),
      r = .resolved p ∧ (p.success && p.code == 200) = true ∧
      newUrlOf song p = .ok newUrl ∧ (curUrl == newUrl) = false ∧
      u = buildUpdatedSong ctxTerm song index quality p newUrl ∧
      urlGateFails u.url = false := by
  cases r with
  | rejected e =>
    exact absurd h (classifyFailure_not_committed e u).1
  | resolved p =>
    simp only [tryPlayAttempt] at h
    cases hac : attemptCore ctxTerm curUrl song index quality p with
    | error e =>
      rw [hac] at h
      exact absurd h (classifyFailure_not_committed e u).1
    | ok o =>
      cases o with
      | none =>
        rw [hac] at h
        exact absurd h (by simp)
      | some u' =>
        rw [hac] at h
        have hu : u' = u := by
          have := h
          simp only [AttemptOut.committed.injEq] at this
          exact this
        subst hu
        simp only [attemptCore] at hac
        by_cases hok : (p.success && p.code == 200) = true
        · rw [if_pos hok] at hac
          cases hnu : newUrlOf song p with
          | error e =>
            rw [hnu] at hac
            exact absurd hac (by simp)
          | ok newUrl =>
            rw [hnu] at hac
            simp only at hac
            by_cases hcur : (curUrl == newUrl) = true
            · rw [if_pos hcur] at hac
              exact absurd hac (by simp)
            · rw [if_neg hcur] at hac
              by_cases hgate :
                  urlGateFails (buildUpdatedSong ctxTerm song index quality p newUrl).url = true
              · rw [if_pos hgate] at hac
                exact absurd hac (by simp)
              · rw [if_neg hgate] at hac
                simp only [Except.ok.injEq, Option.some.injEq] at hac
                refine ⟨p, newUrl, rfl, hok, hnu,
                  Bool.not_eq_true _ ▸ hcur, hac.symm, ?_⟩
                rw [← hac]
                exact Bool.not_eq_true _ ▸ hgate
        · rw [if_neg hok] at hac
          exact absurd hac (by simp)

/-- The committed record keeps the stub's platform and maps lyrics per
provider: empty for `qq`, the payload's `lyric` field (or `[]`) for the
other branch. -/
theorem buildUpdatedSong_platform_lyrics (ctxTerm : String) (song : Song)
    (index quality : Option Nat) (p : FetchPayload) (newUrl : Option String) :
    (buildUpdatedSong ctxTerm song index quality p newUrl).platform = song.platform ∧
    (buildUpdatedSong ctxTerm song index quality p newUrl).lyrics =
      some (if song.platform == some "qq" then [] else p.lyric.getD []) := by
  constructor
  · rfl
  · rfl

/-- C10: every committed resolution of a provider-B (`qq`) song has the
empty lyrics list, whatever the provider response contained; among the two
provider tags, only `wy` resolutions can commit non-empty lyrics. -/
theorem c10_qq_commit_empty_lyrics (ctxTerm : String) (curUrl : Option String)
    (song : Song) (index quality : Option Nat) (r : FetchOutcome) (u : Song)
    (hc : tryPlayAttempt ctxTerm curUrl song index quality r = .committed u) :
    (u.platform = some "qq" → u.lyrics = some []) ∧
    (∀ l : List String, u.lyrics = some l → l ≠ [] →
      u.platform = some "wy" ∨ u.platform = some "qq" →
      u.platform = some "wy") := by
  obtain ⟨p, newUrl, -, -, -, -, hu, -⟩ :=
    attempt_committed_inv ctxTerm curUrl song index quality r u hc
  have hplat := (buildUpdatedSong_platform_lyrics ctxTerm song index quality p newUrl).1
  have hlyr := (buildUpdatedSong_platform_lyrics ctxTerm song index quality p newUrl).2
  constructor
  · intro hqq
    rw [hu, hlyr]
    have : (song.platform == some "qq") = true := by
      rw [← hplat, ← hu, hqq]
      decide
    rw [this]
    simp
  · intro l hl hne hdom
    cases hdom with
    | inl hwy => exact hwy
    | inr hqq =>
      exfalso
      apply hne
      have : (song.platform == some "qq") = true := by
        rw [← hplat, ← hu, hqq]
        decide
      rw [hu, hlyr, this] at hl
      simp only [if_true, Option.some.injEq] at hl
      exact hl.symm

/-- C10 witness: a concrete committed `qq` resolution carries empty lyrics
even though the stub had lyrics. -/
theorem c10_qq_commit_empty_lyrics_witness :
    ∃ u : Song,
      tryPlayAttempt "a" none songQ (some 0) (some 5) (.resolved okQQPayload)
        = .committed u ∧ (u.platform = some "qq" → u.lyrics = some []) :=
  ⟨buildUpdatedSong "a" songQ (some 0) (some 5) okQQPayload
      (some "http://h/q.mp3"),
    by decide,
    (c10_qq_commit_empty_lyrics "a" none songQ (some 0) (some 5)
      (.resolved okQQPayload) _ (by decide)).1⟩

/-- The `finally` block preserves every field except the abort ref and the
loading flag. -/
theorem finishTask_fields (c : Ctx) (ctrl : Nat) :
    (finishTask c ctrl).currentSong = c.currentSong ∧
    (finishTask c ctrl).playHistory = c.playHistory ∧
    (finishTask c ctrl).searchTerm = c.searchTerm ∧
    (finishTask c ctrl).selectedQuality = c.selectedQuality ∧
    (finishTask c ctrl).aborted = c.aborted ∧
    (finishTask c ctrl).infoMsgs = c.infoMsgs ∧
    (finishTask c ctrl).errMsgs = c.errMsgs ∧
    (finishTask c ctrl).isPlaying = c.isPlaying ∧
    (finishTask c ctrl).songs = c.songs := by
  unfold finishTask
  split <;> exact ⟨rfl, rfl, rfl, rfl, rfl, rfl, rfl, rfl, rfl⟩

/-- Advancing the retry loop after a failed attempt only touches the notice
lists, the abort ref and the loading flag. -/
theorem retryAdvance_fields (c : Ctx) (t : ResTask) :
    (retryAdvance c t).1.currentSong = c.currentSong ∧
    (retryAdvance c t).1.playHistory = c.playHistory ∧
    (retryAdvance c t).1.searchTerm = c.searchTerm ∧
    (retryAdvance c t).1.selectedQuality = c.selectedQuality ∧
    (retryAdvance c t).1.aborted = c.aborted ∧
    (retryAdvance c t).1.isPlaying = c.isPlaying ∧
    (retryAdvance c t).1.songs = c.songs := by
  simp only [retryAdvance, exhaustFail, finishTask]
  split
  · exact ⟨rfl, rfl, rfl, rfl, rfl, rfl, rfl⟩
  · split <;> exact ⟨rfl, rfl, rfl, rfl, rfl, rfl, rfl⟩

/-- Unless the (abort-effective) attempt commits, resuming a fetch leaves the
current song and the play history untouched. -/
theorem resumeFetch_preserves_unless_commit (c : Ctx) (t : ResTask)
    (r : FetchOutcome)
    (h : ∀ u : Song,
      tryPlayAttempt c.searchTerm (c.currentSong.bind fun s => s.url)
        t.song t.index t.quality
        (if c.aborted.contains t.ctrl then
          FetchOutcome.rejected
            { name := "AbortError", message := "The operation was aborted" }
         else r) ≠ .committed u) :
    (resumeFetch c t r).1.currentSong = c.currentSong ∧
    (resumeFetch c t r).1.playHistory = c.playHistory := by
  unfold resumeFetch
  cases hout : tryPlayAttempt c.searchTerm (c.currentSong.bind fun s => s.url)
      t.song t.index t.quality
      (if c.aborted.contains t.ctrl then
        FetchOutcome.rejected
          { name := "AbortError", message := "The operation was aborted" }
       else r) with
  | committed u => exact absurd hout (h u)
  | shortCircuit =>
    simp only [hout]
    exact ⟨(finishTask_fields c t.ctrl).1, (finishTask_fields c t.ctrl).2.1⟩
  | failAbort =>
    simp only [hout]
    constructor
    · split
      · exact (finishTask_fields c t.ctrl).1
      · exact (retryAdvance_fields c t).1
    · split
      · exact (finishTask_fields c t.ctrl).2.1
      · exact (retryAdvance_fields c t).2.1
  | failSecurity e =>
    simp only [hout]
    constructor
    · split
      · exact (finishTask_fields _ t.ctrl).1
      · exact (retryAdvance_fields _ t).1
    · split
      · exact (finishTask_fields _ t.ctrl).2.1
      · exact (retryAdvance_fields _ t).2.1
  | failGeneric e =>
    simp only [hout]
    constructor
    · split
      · exact (finishTask_fields c t.ctrl).1
      · exact (retryAdvance_fields c _).1
    · split
      · exact (finishTask_fields c t.ctrl).2.1
      · exact (retryAdvance_fields c _).2.1

/-- The built record's `url` field is the provider-mapped URL. -/
theorem buildUpdatedSong_url (ctxTerm : String) (song : Song)
    (index quality : Option Nat) (p : FetchPayload) (newUrl : Option String) :
    (buildUpdatedSong ctxTerm song index quality p newUrl).url = newUrl := rfl

/-- The invalid-URL error is classified as a generic (retryable) failure:
its name is `Error` and its message does not contain `CORS`. -/
theorem classify_invalid_url :
    classifyFailure { name := "Error", message := "无效的音频 URL" } =
      .failGeneric { name := "Error", message := "无效的音频 URL" } := by
  decide

/-- C4 counterexample: a session hydrated with a current song whose
persisted `url` is `""`, resolving a `qq` stub whose successful fetch yields
the empty (URL-validation-failing) stream URL `""`.  The attempt does not
set the current song and writes nothing to history — but it does NOT count
toward the retry budget: the equal-URL short-circuit treats it as an
already-successful resolution (no retry notice, no surfaced error, the loop
ends successfully). -/
theorem c4_counterexample_short_circuit :
    c4Spawn.2 = some c4Task ∧
    newUrlOf c4Song c4Payload = .ok (some "") ∧
    urlGateFails (some "") = true ∧
    tryPlayAttempt c4Spawn.1.searchTerm
      (c4Spawn.1.currentSong.bind fun s => s.url) c4Task.song c4Task.index
      c4Task.quality (.resolved c4Payload) = .shortCircuit ∧
    (resumeFetch c4Spawn.1 c4Task (.resolved c4Payload)).2 =
      .done .shortCircuited ∧
    (resumeFetch c4Spawn.1 c4Task (.resolved c4Payload)).1.currentSong =
      c4Spawn.1.currentSong ∧
    (resumeFetch c4Spawn.1 c4Task (.resolved c4Payload)).1.playHistory =
      c4Spawn.1.playHistory ∧
    (resumeFetch c4Spawn.1 c4Task (.resolved c4Payload)).1.infoMsgs =
      c4Spawn.1.infoMsgs ∧
    (resumeFetch c4Spawn.1 c4Task (.resolved c4Payload)).1.errMsgs =
      c4Spawn.1.errMsgs := by
  decide

/-- C4 as amended: a successful fetch whose yielded stream URL fails the
validation gate never commits and never writes history; it counts toward
the retry budget as a generic `无效的音频 URL` failure — EXCEPT when the
yielded URL equals the current song's URL (including both being absent), in
which case the attempt short-circuits as already-successful and consumes no
retry. -/
theorem c4_amended_invalid_url_gate (ctxTerm : String) (curUrl : Option String)
    (song : Song) (index quality : Option Nat) (p : FetchPayload)
    (newUrl : Option String)
    (hok : (p.success && p.code == 200) = true)
    (hnu : newUrlOf song p = .ok newUrl)
    (hgate : urlGateFails newUrl = true) :
    (∀ u : Song,
      tryPlayAttempt ctxTerm curUrl song index quality (.resolved p) ≠
        .committed u) ∧
    ((curUrl == newUrl) = false →
      tryPlayAttempt ctxTerm curUrl song index quality (.resolved p) =
        .failGeneric { name := "Error", message := "无效的音频 URL" }) ∧
    ((curUrl == newUrl) = true →
      tryPlayAttempt ctxTerm curUrl song index quality (.resolved p) =
        .shortCircuit) ∧
    (∀ (c : Ctx) (t : ResTask), c.searchTerm = ctxTerm →
      (c.currentSong.bind fun s => s.url) = curUrl → t.song = song →
      t.index = index → t.quality = quality →
      (resumeFetch c t (.resolved p)).1.currentSong = c.currentSong ∧
      (resumeFetch c t (.resolved p)).1.playHistory = c.playHistory) := by
  have hnocommit : ∀ u : Song,
      tryPlayAttempt ctxTerm curUrl song index quality (.resolved p) ≠
        .committed u := by
    intro u hc
    obtain ⟨p', newUrl', hr, -, hnu', -, hu, hgate'⟩ :=
      attempt_committed_inv ctxTerm curUrl song index quality (.resolved p) u hc
    have hp : p' = p := by
      cases hr
      rfl
    subst hp
    rw [hnu] at hnu'
    have hnn : newUrl = newUrl' := by
      cases hnu'
      rfl
    subst hnn
    rw [hu, buildUpdatedSong_url] at hgate'
    rw [hgate'] at hgate
    exact absurd hgate (by simp)
  refine ⟨hnocommit, fun hcur => ?_, fun hcur => ?_, fun c t hc1 hc2 ht1 ht2 ht3 => ?_⟩
  · simp only [tryPlayAttempt, attemptCore, hok, if_true, hnu]
    simp only [hcur, Bool.false_eq_true, if_false, buildUpdatedSong_url, hgate,
      if_true, classify_invalid_url]
  · simp only [tryPlayAttempt, attemptCore, hok, if_true, hnu]
    simp only [hcur, if_true]
  · apply resumeFetch_preserves_unless_commit
    intro u
    split
    · exact (classifyFailure_not_committed _ u).1
    · rw [hc1, hc2, ht1, ht2, ht3]
      exact hnocommit u

/-- C4 amended witness: a fresh session (no current song) resolving a `qq`
stub whose fetch yields the empty URL — the attempt counts as a generic
invalid-URL failure and preserves current song and history. -/
theorem c4_amended_invalid_url_gate_witness :
    tryPlayAttempt "a" none c4Song (some 0) (some 5) (.resolved c4Payload) =
      .failGeneric { name := "Error", message := "无效的音频 URL" } ∧
    (resumeFetch witCtx c4Task (.resolved c4Payload)).1.currentSong =
      witCtx.currentSong :=
  ⟨(c4_amended_invalid_url_gate "a" none c4Song (some 0) (some 5) c4Payload
      (some "") (by decide) (by decide) (by decide)).2.1 (by decide),
   ((c4_amended_invalid_url_gate "a" none c4Song (some 0) (some 5) c4Payload
      (some "") (by decide) (by decide) (by decide)).2.2.2 witCtx c4Task
      rfl rfl rfl rfl rfl).1⟩

/-- C2 counterexample: a resolution freshly spawned on an idle session whose
first attempt fails with a `SecurityError` does NOT stop — the error is
surfaced and `isPlaying` is forced off, but the resolver counts the failure
toward the retry budget, surfaces the `正在重试 (1/3)...` notice and
suspends for the retry delay, after which attempt 2 will be made. -/
theorem c2_counterexample_security_retries :
    spawn ctxFresh songA (some 1) (some 5) false = (witCtx, some witTask) ∧
    (resumeFetch witCtx witTask secErr).2 =
      .suspended { witTask with retryCount := 1, phase := .delaying } ∧
    (resumeFetch witCtx witTask secErr).1.infoMsgs =
      witCtx.infoMsgs ++ [retryNotice 1] ∧
    (resumeFetch witCtx witTask secErr).1.errMsgs =
      witCtx.errMsgs ++ ["音频加载失败，请尝试其他歌曲"] ∧
    (resumeFetch witCtx witTask secErr).1.isPlaying = false := by
  decide

/-- C2 as amended: an attempt failing with a `SecurityError` (or an error
whose message mentions CORS) surfaces the user-facing error and forces
`isPlaying` off — but it does not terminate the resolution: the failure is
counted toward the retry budget without being recorded as `lastError`, a
retry notice and delay follow while the budget remains, and once the budget
is exhausted the surfaced final message comes from the previously recorded
`lastError` (or the generic fallback), not from the security error. -/
theorem c2_amended_security_error_retries (c : Ctx) (t : ResTask) (e : JsError)
    (hsec : (e.name == "SecurityError" || strIncludes e.message "CORS") = true)
    (hna : c.aborted.contains t.ctrl = false) :
    (resumeFetch c t (.rejected e)).1.isPlaying = false ∧
    (resumeFetch c t (.rejected e)).1.currentSong = c.currentSong ∧
    (resumeFetch c t (.rejected e)).1.playHistory = c.playHistory ∧
    (t.retryCount + 1 < 3 →
      (resumeFetch c t (.rejected e)).2 =
        .suspended { t with retryCount := t.retryCount + 1, phase := .delaying } ∧
      (resumeFetch c t (.rejected e)).1.infoMsgs =
        c.infoMsgs ++ [retryNotice (t.retryCount + 1)] ∧
      (resumeFetch c t (.rejected e)).1.errMsgs =
        c.errMsgs ++ ["音频加载失败，请尝试其他歌曲"]) ∧
    (¬ t.retryCount + 1 < 3 →
      (resumeFetch c t (.rejected e)).2 =
        .done (.failedSurfaced (surfacedFailMsg t.lastError)) ∧
      (resumeFetch c t (.rejected e)).1.errMsgs =
        c.errMsgs ++ ["音频加载失败，请尝试其他歌曲",
          surfacedFailMsg t.lastError]) := by
  have hcl : classifyFailure e = .failSecurity e := by
    unfold classifyFailure
    simp only [hsec, if_true]
  have hstep : resumeFetch c t (.rejected e) =
      retryAdvance
        { c with errMsgs := c.errMsgs ++ ["音频加载失败，请尝试其他歌曲"],
                 isPlaying := false } t := by
    unfold resumeFetch
    simp only [hna, Bool.false_eq_true, if_false, tryPlayAttempt, hcl]
  rw [hstep]
  by_cases hlt : t.retryCount + 1 < 3
  · have hra : retryAdvance
        { c with errMsgs := c.errMsgs ++ ["音频加载失败，请尝试其他歌曲"],
                 isPlaying := false } t =
        ({ c with errMsgs := c.errMsgs ++ ["音频加载失败，请尝试其他歌曲"],
                  isPlaying := false,
                  infoMsgs := c.infoMsgs ++ [retryNotice (t.retryCount + 1)] },
         .suspended { t with retryCount := t.retryCount + 1, phase := .delaying }) := by
      unfold retryAdvance
      rw [if_pos hlt]
    rw [hra]
    exact ⟨rfl, rfl, rfl, fun _ => ⟨rfl, rfl, rfl⟩, fun hn => absurd hlt hn⟩
  · have hra : retryAdvance
        { c with errMsgs := c.errMsgs ++ ["音频加载失败，请尝试其他歌曲"],
                 isPlaying := false } t =
        exhaustFail
          { c with errMsgs := c.errMsgs ++ ["音频加载失败，请尝试其他歌曲"],
                   isPlaying := false }
          { t with retryCount := t.retryCount + 1 } := by
      unfold retryAdvance
      rw [if_neg hlt]
    rw [hra]
    unfold exhaustFail
    refine ⟨(finishTask_fields _ _).2.2.2.2.2.2.2.1, (finishTask_fields _ _).1,
      (finishTask_fields _ _).2.1, fun hl => absurd hl hlt, fun _ => ⟨rfl, ?_⟩⟩
    rw [(finishTask_fields _ _).2.2.2.2.2.2.1]
    show (c.errMsgs ++ ["音频加载失败，请尝试其他歌曲"]) ++
        [surfacedFailMsg t.lastError] =
      c.errMsgs ++ ["音频加载失败，请尝试其他歌曲", surfacedFailMsg t.lastError]
    rw [List.append_assoc]
    rfl

/-- C2 witness: the amended behavior at a concrete input, with the
hypotheses discharged by computation. -/
theorem c2_amended_security_error_retries_witness :
    (resumeFetch witCtx witTask
      (.rejected { name := "SecurityError", message := "blocked" })).1.isPlaying
        = false ∧
    ((1 : Nat) < 3 →
      (resumeFetch witCtx witTask
        (.rejected { name := "SecurityError", message := "blocked" })).2 =
        .suspended { witTask with retryCount := 1, phase := .delaying } ∧
      (resumeFetch witCtx witTask
        (.rejected { name := "SecurityError", message := "blocked" })).1.infoMsgs =
        witCtx.infoMsgs ++ [retryNotice 1] ∧
      (resumeFetch witCtx witTask
        (.rejected { name := "SecurityError", message := "blocked" })).1.errMsgs =
        witCtx.errMsgs ++ ["音频加载失败，请尝试其他歌曲"]) :=
  ⟨(c2_amended_security_error_retries witCtx witTask
      { name := "SecurityError", message := "blocked" } (by decide) (by decide)).1,
   (c2_amended_security_error_retries witCtx witTask
      { name := "SecurityError", message := "blocked" } (by decide) (by decide)).2.2.2.1⟩

/-- The head of the updated history is the projection of the added song. -/
theorem addToHistory_head (term : String) (q : Nat) (prev : List Song)
    (s : Song) :
    (addToHistory term q prev s).head? = some (simplifySong term q s) := by
  simp only [addToHistory, List.take_succ_cons]
  rfl

/-- A failed, non-aborted attempt below the retry budget surfaces the retry
notice and suspends for the delay with the error recorded. -/
theorem resumeFetch_generic_fail_step (c : Ctx) (t : ResTask)
    (r : FetchOutcome) (e : JsError)
    (hna : c.aborted.contains t.ctrl = false)
    (hatt : tryPlayAttempt c.searchTerm (c.currentSong.bind fun s => s.url)
      t.song t.index t.quality r = .failGeneric e)
    (hlt : t.retryCount + 1 < 3) :
    resumeFetch c t r =
      ({ c with infoMsgs := c.infoMsgs ++ [retryNotice (t.retryCount + 1)] },
       .suspended { t with lastError := some e,
                            retryCount := t.retryCount + 1,
                            phase := .delaying }) := by
  unfold resumeFetch
  simp only [hna, Bool.false_eq_true, if_false, hatt]
  unfold retryAdvance
  rw [if_pos hlt]

/-- A failed, non-aborted attempt that exhausts the retry budget surfaces
the recorded error's message and terminates. -/
theorem resumeFetch_generic_fail_exhaust (c : Ctx) (t : ResTask)
    (r : FetchOutcome) (e : JsError)
    (hna : c.aborted.contains t.ctrl = false)
    (hatt : tryPlayAttempt c.searchTerm (c.currentSong.bind fun s => s.url)
      t.song t.index t.quality r = .failGeneric e)
    (hge : ¬ t.retryCount + 1 < 3) :
    resumeFetch c t r =
      (finishTask
        { c with errMsgs := c.errMsgs ++ [surfacedFailMsg (some e)] } t.ctrl,
       .done (.failedSurfaced (surfacedFailMsg (some e)))) := by
  unfold resumeFetch
  simp only [hna, Bool.false_eq_true, if_false, hatt]
  unfold retryAdvance
  rw [if_neg hge]
  rfl

/-- A committing, non-aborted attempt runs the full commit sequence:
propagate, set current, set the auto-play flag, write history, finish. -/
theorem resumeFetch_commit_eq (c : Ctx) (t : ResTask) (r : FetchOutcome)
    (u : Song)
    (hna : c.aborted.contains t.ctrl = false)
    (hatt : tryPlayAttempt c.searchTerm (c.currentSong.bind fun s => s.url)
      t.song t.index t.quality r = .committed u) :
    resumeFetch c t r =
      (finishTask (addToHistoryCtx
        { updateSongData c u with currentSong := some u,
                                  isPlaying := t.shouldAutoPlay } u) t.ctrl,
       .done .committedOk) := by
  unfold resumeFetch
  simp only [hna, Bool.false_eq_true, if_false, hatt]

/-- Resuming the delay of a non-aborted task issues the next fetch. -/
theorem resumeDelay_continue (c : Ctx) (t : ResTask)
    (hna : c.aborted.contains t.ctrl = false) :
    resumeDelay c t = (c, .suspended { t with phase := .fetching }) := by
  unfold resumeDelay
  simp only [hna, Bool.false_eq_true, if_false]

/-- A suspension out of `retryAdvance` carries the incremented retry count,
strictly below the budget. -/
theorem retryAdvance_suspended_inv (c : Ctx) (t : ResTask) (c1 : Ctx)
    (t1 : ResTask) (h : retryAdvance c t = (c1, .suspended t1)) :
    t1.retryCount = t.retryCount + 1 ∧ t1.retryCount < 3 ∧ t1.ctrl = t.ctrl := by
  simp only [retryAdvance] at h
  split at h
  · rename_i hlt
    rw [Prod.mk.injEq] at h
    obtain ⟨-, h2⟩ := h
    have ht : t1 = { t with lastError := t.lastError,
                            retryCount := t.retryCount + 1,
                            phase := .delaying } := by
      cases h2
      rfl
    subst ht
    exact ⟨rfl, hlt, rfl⟩
  · unfold exhaustFail at h
    rw [Prod.mk.injEq] at h
    exact absurd h.2 (by simp)

/-- A suspension out of a fetch resume carries the incremented retry count,
strictly below the budget, on the same controller. -/
theorem resumeFetch_suspended_inv (c : Ctx) (t : ResTask) (r : FetchOutcome)
    (c1 : Ctx) (t1 : ResTask) (h : resumeFetch c t r = (c1, .suspended t1)) :
    t1.retryCount = t.retryCount + 1 ∧ t1.retryCount < 3 ∧ t1.ctrl = t.ctrl := by
  unfold resumeFetch at h
  cases hout : tryPlayAttempt c.searchTerm (c.currentSong.bind fun s => s.url)
      t.song t.index t.quality
      (if c.aborted.contains t.ctrl then
        FetchOutcome.rejected
          { name := "AbortError", message := "The operation was aborted" }
       else r) with
  | committed u =>
    simp only [hout, Prod.mk.injEq] at h
    exact absurd h.2 (by simp)
  | shortCircuit =>
    simp only [hout, Prod.mk.injEq] at h
    exact absurd h.2 (by simp)
  | failAbort =>
    simp only [hout] at h
    split at h
    · rw [Prod.mk.injEq] at h
      exact absurd h.2 (by simp)
    · exact retryAdvance_suspended_inv _ _ _ _ h
  | failSecurity e =>
    simp only [hout] at h
    split at h
    · rw [Prod.mk.injEq] at h
      exact absurd h.2 (by simp)
    · exact retryAdvance_suspended_inv _ _ _ _ h
  | failGeneric e =>
    simp only [hout] at h
    split at h
    · rw [Prod.mk.injEq] at h
      exact absurd h.2 (by simp)
    · have hh := retryAdvance_suspended_inv _ _ _ _ h
      exact hh

/-- A suspension out of a delay resume keeps the retry count and controller. -/
theorem resumeDelay_suspended_inv (c : Ctx) (t : ResTask) (c1 : Ctx)
    (t1 : ResTask) (h : resumeDelay c t = (c1, .suspended t1)) :
    t1.retryCount = t.retryCount ∧ t1.ctrl = t.ctrl := by
  unfold resumeDelay at h
  split at h
  · rw [Prod.mk.injEq] at h
    exact absurd h.2 (by simp)
  · rw [Prod.mk.injEq] at h
    obtain ⟨-, h2⟩ := h
    have ht : t1 = { t with phase := Phase.fetching } := by
      cases h2
      rfl
    subst ht
    exact ⟨rfl, rfl⟩

/-- The retry loop makes at most `3 - retryCount` further fetch attempts. -/
theorem runLoop_attempts_bound (rs : List FetchOutcome) :
    ∀ (c : Ctx) (t : ResTask), t.retryCount < 3 →
    (runLoop c t rs).2.2.1 ≤ 3 - t.retryCount := by
  induction rs with
  | nil =>
    intro c t h
    simp only [runLoop]
    omega
  | cons r rs ih =>
    intro c t h
    unfold runLoop
    cases h1 : resumeFetch c t r with
    | mk c1 out =>
      cases out with
      | done d =>
        simp only
        omega
      | suspended t1 =>
        simp only
        cases h2 : resumeDelay c1 t1 with
        | mk c2 out2 =>
          cases out2 with
          | done d =>
            simp only
            omega
          | suspended t2 =>
            simp only
            obtain ⟨hrc1, hlt1, -⟩ := resumeFetch_suspended_inv c t r c1 t1 h1
            obtain ⟨hrc2, -⟩ := resumeDelay_suspended_inv c1 t1 c2 t2 h2
            have hb := ih c2 t2 (by omega)
            omega

/-- `finally` keeps the current song. -/
theorem finishTask_currentSong (c : Ctx) (ctrl : Nat) :
    (finishTask c ctrl).currentSong = c.currentSong := (finishTask_fields c ctrl).1

/-- `finally` keeps the history. -/
theorem finishTask_playHistory (c : Ctx) (ctrl : Nat) :
    (finishTask c ctrl).playHistory = c.playHistory := (finishTask_fields c ctrl).2.1

/-- `finally` keeps the info notices. -/
theorem finishTask_infoMsgs (c : Ctx) (ctrl : Nat) :
    (finishTask c ctrl).infoMsgs = c.infoMsgs := (finishTask_fields c ctrl).2.2.2.2.2.1

/-- `finally` keeps the error notices. -/
theorem finishTask_errMsgs (c : Ctx) (ctrl : Nat) :
    (finishTask c ctrl).errMsgs = c.errMsgs := (finishTask_fields c ctrl).2.2.2.2.2.2.1

/-- `finally` keeps the playing flag. -/
theorem finishTask_isPlaying (c : Ctx) (ctrl : Nat) :
    (finishTask c ctrl).isPlaying = c.isPlaying := (finishTask_fields c ctrl).2.2.2.2.2.2.2.1

/-- Writing history does not touch the current song. -/
theorem addToHistoryCtx_currentSong (c : Ctx) (s : Song) :
    (addToHistoryCtx c s).currentSong = c.currentSong := rfl

/-- Writing history only replaces the history list. -/
theorem addToHistoryCtx_playHistory (c : Ctx) (s : Song) :
    (addToHistoryCtx c s).playHistory =
      addToHistory c.searchTerm c.selectedQuality c.playHistory s := rfl

/-- Writing history does not touch the notices. -/
theorem addToHistoryCtx_infoMsgs (c : Ctx) (s : Song) :
    (addToHistoryCtx c s).infoMsgs = c.infoMsgs := rfl

/-- Writing history does not touch the error notices. -/
theorem addToHistoryCtx_errMsgs (c : Ctx) (s : Song) :
    (addToHistoryCtx c s).errMsgs = c.errMsgs := rfl

/-- Writing history does not touch the playing flag. -/
theorem addToHistoryCtx_isPlaying (c : Ctx) (s : Song) :
    (addToHistoryCtx c s).isPlaying = c.isPlaying := rfl

/-- C3: (i) every resolution makes at most 3 fetch attempts; (ii) a
resolution whose attempts fail generically twice and then commit performs
exactly 3 attempts with exactly 2 inter-attempt delays, surfaces exactly the
two `正在重试 (n/3)...` notices, commits the resolved song as current and
writes it to history, surfacing no error; (iii) a resolution whose 3
attempts all fail generically performs 2 delays, commits nothing, and
surfaces exactly the 3rd error's message (the recorded `lastError`). -/
theorem c3_retry_policy :
    (∀ (rs : List FetchOutcome) (c : Ctx) (t : ResTask), t.retryCount = 0 →
      (runLoop c t rs).2.2.1 ≤ 3) ∧
    (∀ (c : Ctx) (t : ResTask) (r1 r2 r3 : FetchOutcome) (e1 e2 : JsError)
      (u : Song), t.retryCount = 0 → c.aborted.contains t.ctrl = false →
      tryPlayAttempt c.searchTerm (c.currentSong.bind fun s => s.url)
        t.song t.index t.quality r1 = .failGeneric e1 →
      tryPlayAttempt c.searchTerm (c.currentSong.bind fun s => s.url)
        t.song t.index t.quality r2 = .failGeneric e2 →
      tryPlayAttempt c.searchTerm (c.currentSong.bind fun s => s.url)
        t.song t.index t.quality r3 = .committed u →
      (runLoop c t [r1, r2, r3]).2.1 = some .committedOk ∧
      (runLoop c t [r1, r2, r3]).2.2.1 = 3 ∧
      (runLoop c t [r1, r2, r3]).2.2.2 = 2 ∧
      (runLoop c t [r1, r2, r3]).1.currentSong = some u ∧
      (runLoop c t [r1, r2, r3]).1.playHistory.head? =
        some (simplifySong c.searchTerm c.selectedQuality u) ∧
      (runLoop c t [r1, r2, r3]).1.infoMsgs =
        c.infoMsgs ++ [retryNotice 1, retryNotice 2] ∧
      (runLoop c t [r1, r2, r3]).1.errMsgs = c.errMsgs) ∧
    (∀ (c : Ctx) (t : ResTask) (r1 r2 r3 : FetchOutcome) (e1 e2 e3 : JsError),
      t.retryCount = 0 → c.aborted.contains t.ctrl = false →
      tryPlayAttempt c.searchTerm (c.currentSong.bind fun s => s.url)
        t.song t.index t.quality r1 = .failGeneric e1 →
      tryPlayAttempt c.searchTerm (c.currentSong.bind fun s => s.url)
        t.song t.index t.quality r2 = .failGeneric e2 →
      tryPlayAttempt c.searchTerm (c.currentSong.bind fun s => s.url)
        t.song t.index t.quality r3 = .failGeneric e3 →
      (runLoop c t [r1, r2, r3]).2.1 =
        some (.failedSurfaced (surfacedFailMsg (some e3))) ∧
      (runLoop c t [r1, r2, r3]).2.2.1 = 3 ∧
      (runLoop c t [r1, r2, r3]).2.2.2 = 2 ∧
      (runLoop c t [r1, r2, r3]).1.currentSong = c.currentSong ∧
      (runLoop c t [r1, r2, r3]).1.playHistory = c.playHistory ∧
      (runLoop c t [r1, r2, r3]).1.infoMsgs =
        c.infoMsgs ++ [retryNotice 1, retryNotice 2] ∧
      (runLoop c t [r1, r2, r3]).1.errMsgs =
        c.errMsgs ++ [surfacedFailMsg (some e3)] ∧
      ((e3.message == "") = false → surfacedFailMsg (some e3) = e3.message)) := by
  refine ⟨?_, ?_, ?_⟩
  · intro rs c t hrc
    have h := runLoop_attempts_bound rs c t (by omega)
    omega
  · intro c t r1 r2 r3 e1 e2 u hrc hna hatt1 hatt2 hatt3
    have h1 := resumeFetch_generic_fail_step c t r1 e1 hna hatt1 (by omega)
    have h2 := resumeDelay_continue
      ({ c with infoMsgs := c.infoMsgs ++ [retryNotice (t.retryCount + 1)] })
      ({ t with lastError := some e1, retryCount := t.retryCount + 1,
                phase := Phase.delaying }) hna
    have h3 := resumeFetch_generic_fail_step
      ({ c with infoMsgs := c.infoMsgs ++ [retryNotice (t.retryCount + 1)] })
      ({ t with lastError := some e1, retryCount := t.retryCount + 1,
                phase := Phase.fetching }) r2 e2 hna hatt2
      (show t.retryCount + 1 + 1 < 3 by omega)
    have h4 := resumeDelay_continue
      ({ c with infoMsgs := (c.infoMsgs ++ [retryNotice (t.retryCount + 1)]) ++
          [retryNotice (t.retryCount + 1 + 1)] })
      ({ t with lastError := some e2, retryCount := t.retryCount + 1 + 1,
                phase := Phase.delaying }) hna
    have h5 := resumeFetch_commit_eq
      ({ c with infoMsgs := (c.infoMsgs ++ [retryNotice (t.retryCount + 1)]) ++
          [retryNotice (t.retryCount + 1 + 1)] })
      ({ t with lastError := some e2, retryCount := t.retryCount + 1 + 1,
                phase := Phase.fetching }) r3 u hna hatt3
    rw [hrc] at h1 h2 h3 h4 h5
    simp only [runLoop, h1, h2, h3, h4, h5, hrc]
    refine ⟨by trivial, by trivial, by trivial, ?_, ?_, ?_, ?_⟩
    · rw [finishTask_currentSong, addToHistoryCtx_currentSong]
    · rw [finishTask_playHistory, addToHistoryCtx_playHistory, addToHistory_head]
      rfl
    · rw [finishTask_infoMsgs, addToHistoryCtx_infoMsgs]
      show (c.infoMsgs ++ [retryNotice 1]) ++ [retryNotice 2] =
        c.infoMsgs ++ [retryNotice 1, retryNotice 2]
      rw [List.append_assoc]
      rfl
    · rw [finishTask_errMsgs, addToHistoryCtx_errMsgs]
      rfl
  · intro c t r1 r2 r3 e1 e2 e3 hrc hna hatt1 hatt2 hatt3
    have h1 := resumeFetch_generic_fail_step c t r1 e1 hna hatt1 (by omega)
    have h2 := resumeDelay_continue
      ({ c with infoMsgs := c.infoMsgs ++ [retryNotice (t.retryCount + 1)] })
      ({ t with lastError := some e1, retryCount := t.retryCount + 1,
                phase := Phase.delaying }) hna
    have h3 := resumeFetch_generic_fail_step
      ({ c with infoMsgs := c.infoMsgs ++ [retryNotice (t.retryCount + 1)] })
      ({ t with lastError := some e1, retryCount := t.retryCount + 1,
                phase := Phase.fetching }) r2 e2 hna hatt2
      (show t.retryCount + 1 + 1 < 3 by omega)
    have h4 := resumeDelay_continue
      ({ c with infoMsgs := (c.infoMsgs ++ [retryNotice (t.retryCount + 1)]) ++
          [retryNotice (t.retryCount + 1 + 1)] })
      ({ t with lastError := some e2, retryCount := t.retryCount + 1 + 1,
                phase := Phase.delaying }) hna
    have h5 := resumeFetch_generic_fail_exhaust
      ({ c with infoMsgs := (c.infoMsgs ++ [retryNotice (t.retryCount + 1)]) ++
          [retryNotice (t.retryCount + 1 + 1)] })
      ({ t with lastError := some e2, retryCount := t.retryCount + 1 + 1,
                phase := Phase.fetching }) r3 e3 hna hatt3
      (show ¬ t.retryCount + 1 + 1 + 1 < 3 by omega)
    rw [hrc] at h1 h2 h3 h4 h5
    simp only [runLoop, h1, h2, h3, h4, h5, hrc]
    refine ⟨by trivial, by trivial, by trivial, ?_, ?_, ?_, ?_, ?_⟩
    · rw [finishTask_currentSong]
    · rw [finishTask_playHistory]
    · rw [finishTask_infoMsgs]
      show (c.infoMsgs ++ [retryNotice 1]) ++ [retryNotice 2] =
        c.infoMsgs ++ [retryNotice 1, retryNotice 2]
      rw [List.append_assoc]
      rfl
    · rw [finishTask_errMsgs]
    · intro hne
      simp only [surfacedFailMsg, hne, Bool.false_eq_true, if_false]

/-- C3 witness: a freshly spawned resolution whose fetch fails twice with a
network error and then succeeds commits on the 3rd attempt, after exactly 2
inter-attempt delays. -/
theorem c3_retry_policy_witness :
    (runLoop witCtx witTask [failNet, failNet, .resolved okWyPayload]).2.1 =
      some .committedOk ∧
    (runLoop witCtx witTask [failNet, failNet, .resolved okWyPayload]).2.2.1 = 3 ∧
    (runLoop witCtx witTask [failNet, failNet, .resolved okWyPayload]).2.2.2 = 2 :=
  have h := c3_retry_policy.2.1 witCtx witTask failNet failNet
    (.resolved okWyPayload)
    { name := "TypeError", message := "Failed to fetch" }
    { name := "TypeError", message := "Failed to fetch" }
    (buildUpdatedSong "a" songA (some 1) (some 5) okWyPayload
      (some "http://h/a.mp3"))
    rfl (by decide) (by decide) (by decide) (by decide)
  ⟨h.1, h.2.1, h.2.2.1⟩

/-- Re-applying the falsy-string fallback to its own result is the
identity. -/
theorem jsOrStrD_absorb (a : Option String) (b : String) :
    jsOrStrD (some (jsOrStrD a b)) b = jsOrStrD a b := by
  cases a with
  | none =>
    simp only [jsOrStrD]
    split <;> rfl
  | some s =>
    simp only [jsOrStrD]
    by_cases hs : s = ""
    · rw [if_pos hs]
      split <;> rfl
    · rw [if_neg hs, if_neg hs]

/-- The committed record's `requestUrl` is the descriptor actually fetched. -/
theorem buildUpdatedSong_requestUrl (ctxTerm : String) (song : Song)
    (index quality : Option Nat) (p : FetchPayload) (newUrl : Option String) :
    (buildUpdatedSong ctxTerm song index quality p newUrl).requestUrl =
      some (attemptRequestUrl ctxTerm song index quality) := rfl

/-- C7 counterexample: a resolution of a stub with `quality = 9` while the
context's `selectedQuality` is `5` commits — the committed current song's
`requestUrl` is the descriptor actually fetched (with `quality=9`), but the
history entry stores a descriptor rebuilt with `selectedQuality` (with
`quality=5`), a different URL. -/
theorem c7_counterexample_history_request_url :
    c7Spawn.2 = some c7Task ∧
    attemptRequestUrl c7Spawn.1.searchTerm songA (some 1) (some 9) =
      "/api/sby?platform=wy&term=a&index=1&quality=9" ∧
    c7Commit.2 = .done .committedOk ∧
    (c7Commit.1.currentSong.bind fun s => s.requestUrl) =
      some "/api/sby?platform=wy&term=a&index=1&quality=9" ∧
    (c7Commit.1.playHistory.head?.bind fun s => s.requestUrl) =
      some "/api/sby?platform=wy&term=a&index=1&quality=5" ∧
    ("/api/sby?platform=wy&term=a&index=1&quality=5" : String) ≠
      "/api/sby?platform=wy&term=a&index=1&quality=9" := by
  decide

/-- C7 as amended: the history entry written on commit stores a `requestUrl`
REBUILT from the committed song's platform, search term, search index and
the context's `selectedQuality` — not the fetched descriptor itself; the two
agree exactly when the stub carried no usable `requestUrl` and the
resolution's quality renders the same URL fragment as `selectedQuality`. -/
theorem c7_amended_history_request_url (c : Ctx) (t : ResTask)
    (r : FetchOutcome) (u : Song)
    (hna : c.aborted.contains t.ctrl = false)
    (hatt : tryPlayAttempt c.searchTerm (c.currentSong.bind fun s => s.url)
      t.song t.index t.quality r = .committed u) :
    (resumeFetch c t r).1.playHistory.head? =
      some (simplifySong c.searchTerm c.selectedQuality u) ∧
    (simplifySong c.searchTerm c.selectedQuality u).requestUrl =
      some (histRequestUrl c.searchTerm c.selectedQuality u) ∧
    u.requestUrl = some (attemptRequestUrl c.searchTerm t.song t.index t.quality) ∧
    ((∀ s : String, t.song.requestUrl = some s → s = "") →
      qualityPart t.quality = qualityPart (some c.selectedQuality) →
      histRequestUrl c.searchTerm c.selectedQuality u =
        attemptRequestUrl c.searchTerm t.song t.index t.quality) := by
  obtain ⟨p, newUrl, hr, -, -, -, hu, -⟩ :=
    attempt_committed_inv c.searchTerm (c.currentSong.bind fun s => s.url)
      t.song t.index t.quality r u hatt
  refine ⟨?_, rfl, ?_, ?_⟩
  · rw [resumeFetch_commit_eq c t r u hna hatt, finishTask_playHistory,
      addToHistoryCtx_playHistory, addToHistory_head]
    rfl
  · rw [hu, buildUpdatedSong_requestUrl]
  · intro hfalsy hq
    have hfetch : attemptRequestUrl c.searchTerm t.song t.index t.quality =
        buildPlayUrl c.searchTerm t.song t.index t.quality := by
      unfold attemptRequestUrl
      cases hreq : t.song.requestUrl with
      | none => rfl
      | some s =>
        have hs := hfalsy s hreq
        simp [jsOrStrD, hs]
    rw [hfetch, hu]
    unfold histRequestUrl buildPlayUrl buildUpdatedSong
    simp only [jsOrStrD_absorb, hq]

/-- C7 amended witness: with the stub's `requestUrl` absent and the
resolution quality equal to `selectedQuality`, the stored and fetched
descriptors coincide. -/
theorem c7_amended_history_request_url_witness :
    (resumeFetch witCtx witTask (.resolved okWyPayload)).1.playHistory.head? =
      some (simplifySong witCtx.searchTerm witCtx.selectedQuality
        (buildUpdatedSong "a" songA (some 1) (some 5) okWyPayload
          (some "http://h/a.mp3"))) ∧
    histRequestUrl witCtx.searchTerm witCtx.selectedQuality
        (buildUpdatedSong "a" songA (some 1) (some 5) okWyPayload
          (some "http://h/a.mp3")) =
      attemptRequestUrl witCtx.searchTerm witTask.song witTask.index
        witTask.quality :=
  have h := c7_amended_history_request_url witCtx witTask
    (.resolved okWyPayload)
    (buildUpdatedSong "a" songA (some 1) (some 5) okWyPayload
      (some "http://h/a.mp3"))
    (by decide) (by decide)
  ⟨h.1, h.2.2.2 (by intro s hs; cases hs) rfl⟩

/-- C1 failing trace, evaluated on the model: resolution Z starts, A starts
as a retry while Z is in flight (cancelling Z before issuing its own
request), then Z's aborted continuation runs its `finally` block, which
nulls the shared abort ref — a ref that at that point belongs to A — and
clears the loading flag.  Resolution B then starts while A is still in
flight: it passes the loading guard, finds the abort ref null, and issues
its request WITHOUT requesting cancellation of A; A's subsequent success
commits (current song and history are set to A's song) even though B was
started after it.  This contradicts both "cancellation of A requested
before B's request is issued" and "A never commits". -/
theorem c1_lost_cancellation_trace :
    c1Step1.2 = some c1TaskZ ∧
    c1Step2.2 = some c1TaskA ∧
    c1Step2.1.aborted = [c1TaskZ.ctrl] ∧
    c1Step3.2 = .done .abortedOut ∧
    c1Step3.1.abortRef = none ∧
    c1Step3.1.isLoading = false ∧
    c1Step4.2.isSome = true ∧
    c1Step4.1.aborted.contains c1TaskA.ctrl = false ∧
    c1Step5.2 = .done .committedOk ∧
    (c1Step5.1.currentSong.bind fun s => s.name) = some "A" ∧
    (c1Step5.1.playHistory.head?.bind fun s => s.name) = some "A" := by
  decide

end MusicCtx
